import Mathlib

/-!
Verification of the job-recommendation engine.

Shallow embedding conventions:
* Python floats are modelled as `ℚ` (all constants in the source are decimal
  literals, so every computation is exact rational arithmetic).
* Python dictionaries with a fixed key set are records; `dict.get(k, d)` on an
  optional entry is `Option.getD`.
* `list(set(xs))` is `List.dedup` (same underlying set; Python's set order is
  implementation defined, and no theorem below depends on the order).
* External NLP / embedding / ML-fitting calls (spaCy, sentence embeddings,
  scikit-learn fits) are abstract oracle parameters: the properties proved
  hold for every behaviour of those collaborators.
-/

/-! ### Python string primitives (semantics of `lower`, `strip`, `in`, `split`) -/

/-- ASCII lower-casing of one character, as CPython does for the inputs used here. -/
def pyLowerChar (c : Char) : Char :=
  if 'A' ≤ c ∧ c ≤ 'Z' then Char.ofNat (c.toNat + 32) else c

/-- Python `str.lower()`. -/
def pyLower (s : String) : String := ⟨s.data.map pyLowerChar⟩

/-- Whitespace test used by Python `str.strip()`. -/
def pySpace (c : Char) : Bool := c = ' ' ∨ c = '\t' ∨ c = '\n' ∨ c = '\r'

/-- Python `str.strip()`. -/
def pyStrip (s : String) : String :=
  ⟨((s.data.dropWhile pySpace).reverse.dropWhile pySpace).reverse⟩

/-- Auxiliary substring search on character lists. -/
def containsSub : List Char → List Char → Bool
  | _, [] => false
  | needle, c :: rest =>
    List.isPrefixOf needle (c :: rest) || containsSub needle rest

/-- Python `needle in hay` for strings (`""` is a substring of everything). -/
def pyIn (needle hay : String) : Bool :=
  needle.data.isEmpty || containsSub needle.data hay.data

/-- Splitting a character list at `','` (auxiliary for `pySplitComma`). -/
def splitCommaAux : List Char → List Char → List (List Char)
  | acc, [] => [acc.reverse]
  | acc, c :: rest =>
    if c = ',' then acc.reverse :: splitCommaAux [] rest
    else splitCommaAux (c :: acc) rest

/-- Python `s.split(',')` (always returns at least one piece). -/
def pySplitComma (s : String) : List String :=
  (splitCommaAux [] s.data).map fun cs => ⟨cs⟩

/-! ### `app/services/ontology_service.py` — the skill ontology graph

`SkillNode` keeps the fields read by the embedded functions
(`get_skill_similarity`, `_build_relationships`, `_find_enhanced_skill_matches`);
`industry_relevance`, `prerequisites`, `learning_path` and `difficulty_level`
are never read by them and are omitted. -/

structure SkillNode where
  name : String
  category : String
  synonyms : List String
  related_skills : List String
deriving DecidableEq, Repr

namespace OntologyService

/-- `_initialize_skills_ontology`: the static skills graph, an association list
keyed by the lowercase skill name (dict insertion order preserved). -/
def skillsGraph : List (String × SkillNode) := [
  ("python", ⟨"Python", "programming",
    ["py", "python3", "python2"],
    ["django", "flask", "pandas", "numpy", "scikit-learn"]⟩),
  ("javascript", ⟨"JavaScript", "programming",
    ["js", "ecmascript", "nodejs"],
    ["react", "angular", "vue", "node.js", "express"]⟩),
  ("java", ⟨"Java", "programming",
    ["java8", "java11", "jdk"],
    ["spring", "spring boot", "hibernate", "maven", "gradle"]⟩),
  ("spring boot", ⟨"Spring Boot", "web_backend",
    ["springboot", "spring framework"],
    ["java", "spring", "maven", "gradle", "hibernate", "jpa", "rest api", "microservices"]⟩),
  ("css", ⟨"CSS", "web_frontend",
    ["cascading style sheets", "css3"],
    ["html", "sass", "less", "bootstrap", "tailwind", "responsive design", "flexbox", "grid"]⟩),
  ("react", ⟨"React", "web_frontend",
    ["reactjs", "react.js"],
    ["javascript", "jsx", "redux", "next.js"]⟩),
  ("node.js", ⟨"Node.js", "web",
    ["nodejs", "node"],
    ["javascript", "express", "npm", "mongodb"]⟩),
  ("machine learning", ⟨"Machine Learning", "ai_ml",
    ["ml", "ai", "artificial intelligence"],
    ["python", "pandas", "scikit-learn", "tensorflow", "pytorch"]⟩),
  ("pandas", ⟨"Pandas", "data_science",
    ["pandas library", "data manipulation"],
    ["python", "numpy", "matplotlib", "jupyter"]⟩),
  ("data science", ⟨"Data Science", "data_science",
    ["data scientist", "data analytics", "data analysis"],
    ["python", "pandas", "numpy", "matplotlib", "seaborn", "scikit-learn", "jupyter", "sql", "statistics"]⟩),
  ("aws", ⟨"AWS", "aws_services",
    ["amazon web services", "amazon cloud"],
    ["lambda", "ec2", "s3", "rds", "dynamodb", "cloudformation", "cloudwatch", "iam", "vpc",
     "route53", "sns", "sqs", "api gateway", "elastic beanstalk", "ecs", "eks", "fargate",
     "cloudfront", "sagemaker", "redshift", "elasticsearch", "kinesis", "step functions"]⟩),
  ("lambda", ⟨"AWS Lambda", "aws_services",
    ["lambda functions", "serverless"],
    ["aws", "python", "javascript", "nodejs", "api gateway", "dynamodb", "s3"]⟩),
  ("ec2", ⟨"AWS EC2", "aws_services",
    ["elastic compute cloud", "aws instances"],
    ["aws", "linux", "docker", "terraform", "cloudformation"]⟩),
  ("docker", ⟨"Docker", "containerization",
    ["containerization", "containers"],
    ["kubernetes", "containers", "podman", "rancher", "helm", "deployment", "ci/cd", "pipeline", "devops"]⟩),
  ("mysql", ⟨"MySQL", "databases",
    ["mysql database", "mysql server"],
    ["sql", "postgresql", "oracle", "database design", "indexing", "query optimization"]⟩),
  ("sql", ⟨"SQL", "databases",
    ["structured query language", "database"],
    ["mysql", "postgresql", "mongodb", "redis"]⟩),
  ("mongodb", ⟨"MongoDB", "database",
    ["mongo", "nosql", "document database"],
    ["node.js", "python", "javascript", "json"]⟩),
  ("git", ⟨"Git", "development_tools",
    ["version control", "git version control", "source control"],
    ["github", "gitlab", "bitbucket", "command line", "bash"]⟩)]

/-- Python `self.skills_graph.get(key)`. -/
def graphGet (k : String) : Option SkillNode :=
  (skillsGraph.find? fun p => p.1 = k).map Prod.snd

/-- `_build_relationships`, flattened to the list of directed edges it appends:
for every graph entry `(k, node)` and every `r ∈ node.related_skills` that is
itself a graph key, both `k → r` and `r → k` are recorded. -/
def skillRelationEdges : List (String × String) :=
  skillsGraph.flatMap fun p =>
    (p.2.related_skills.filter fun r => (graphGet r).isSome).flatMap fun r =>
      [(p.1, r), (r, p.1)]

/-- `self.skill_relationships.get(s, [])`: all targets of edges leaving `s`. -/
def relationshipsGet (s : String) : List String :=
  (skillRelationEdges.filter fun e => e.1 = s).map Prod.snd

/-- `get_skill_similarity(skill1, skill2)` — transliterated from the source:
exact (raw) equality, then node lookup, then synonym / related / category /
relationship tiers in that order. -/
def get_skill_similarity (skill1 skill2 : String) : ℚ :=
  if skill1 = skill2 then 1
  else
    match graphGet (pyLower skill1), graphGet (pyLower skill2) with
    | some skill1_node, some skill2_node =>
      if pyLower skill1 ∈ skill2_node.synonyms ∨ pyLower skill2 ∈ skill1_node.synonyms then
        9/10
      else if pyLower skill2 ∈ skill1_node.related_skills ∨
              pyLower skill1 ∈ skill2_node.related_skills then
        7/10
      else if skill1_node.category = skill2_node.category then
        1/2
      else if pyLower skill2 ∈ relationshipsGet (pyLower skill1) then
        6/10
      else 0
    | _, _ => 0

/-- The similarity contract as the specification words it: exact match 1.0,
synonym 0.9, related edge 0.7, shared category 0.5, otherwise 0.0 — written
independently of the extra `0.6` relationship tier of the source. -/
def specSimilarity (skill1 skill2 : String) : ℚ :=
  if skill1 = skill2 then 1
  else
    match graphGet (pyLower skill1), graphGet (pyLower skill2) with
    | some n1, some n2 =>
      if pyLower skill1 ∈ n2.synonyms ∨ pyLower skill2 ∈ n1.synonyms then 9/10
      else if pyLower skill2 ∈ n1.related_skills ∨ pyLower skill1 ∈ n2.related_skills then 7/10
      else if n1.category = n2.category then 1/2
      else 0
    | _, _ => 0

end OntologyService



/-! ### `app/services/weight_calculator.py` — the dynamic weight calculator -/

inductive IndustryType
  | technology | finance | healthcare | marketing | education
  | manufacturing | retail | consulting | startup | enterprise
deriving DecidableEq, Repr

inductive CareerStage
  | entry | junior | mid | senior | lead | executive
deriving DecidableEq, Repr

structure WeightConfig where
  skill_weight : ℚ
  experience_weight : ℚ
  location_weight : ℚ
  salary_weight : ℚ
  semantic_weight : ℚ
  market_demand_weight : ℚ
  career_growth_weight : ℚ
deriving DecidableEq, Repr

/-- The keys of `user_profile` read by the weight calculator (`dict.get` with a
default on a missing key is `Option.getD`; a key that is absent is `none`). -/
structure UserProfile where
  experience_years : Option ℚ := none
  remote_preference : Option ℚ := none
  salary_sensitivity : Option ℚ := none
  career_growth_focus : Option ℚ := none
deriving Repr

/-- The job dictionary: every key read by the weight calculator and by
`JobMatcherService.match_candidate_to_jobs` (string keys default to `""`,
numeric keys to `none` when absent, mirroring `job.get(...)`). -/
structure JobData where
  id : Int := 0
  title : String := ""
  company_name : String := ""
  description : String := ""
  status : String := ""
  location : String := ""
  remote_work_allowed : String := "No"
  required_skills : List String := []
  preferred_skills : List String := []
  min_experience_years : Option ℚ := none
  max_experience_years : Option ℚ := none
  min_salary : Option ℚ := none
  max_salary : Option ℚ := none
deriving Repr

/-- Market-condition dictionary (`tech_boom` is never read and is omitted). -/
structure MarketContext where
  remote_work_trend : Option ℚ := none
  skill_shortage : Option ℚ := none
  economic_uncertainty : Option ℚ := none
deriving Repr

namespace DynamicWeightCalculator

/-- `self.base_weights` (fallback). -/
def base_weights : WeightConfig :=
  ⟨0.35, 0.25, 0.15, 0.10, 0.10, 0.03, 0.02⟩

/-- `self.industry_weights` (a dict over five of the ten industries). -/
def industry_weights : IndustryType → Option WeightConfig
  | .technology => some ⟨0.45, 0.20, 0.10, 0.10, 0.10, 0.03, 0.02⟩
  | .finance    => some ⟨0.25, 0.35, 0.20, 0.15, 0.03, 0.01, 0.01⟩
  | .healthcare => some ⟨0.20, 0.40, 0.25, 0.10, 0.03, 0.01, 0.01⟩
  | .startup    => some ⟨0.40, 0.15, 0.20, 0.15, 0.08, 0.01, 0.01⟩
  | .enterprise => some ⟨0.30, 0.30, 0.20, 0.12, 0.05, 0.02, 0.01⟩
  | _ => none

/-- One entry of `self.career_stage_adjustments` (the five keys present in
each stage's dict; `adjustments.get(key, 1.0)` falls back to `1.0` only for
the two weights never listed). -/
structure StageAdjustments where
  skill_weight : ℚ
  experience_weight : ℚ
  location_weight : ℚ
  salary_weight : ℚ
  semantic_weight : ℚ

/-- `self.career_stage_adjustments`. -/
def career_stage_adjustments : CareerStage → StageAdjustments
  | .entry     => ⟨1.5, 0.3, 1.2, 0.8, 1.3⟩
  | .junior    => ⟨1.3, 0.5, 1.1, 0.9, 1.2⟩
  | .mid       => ⟨1.0, 1.0, 1.0, 1.0, 1.0⟩
  | .senior    => ⟨0.8, 1.3, 0.9, 1.2, 0.9⟩
  | .lead      => ⟨0.6, 1.5, 0.8, 1.3, 0.8⟩
  | .executive => ⟨0.4, 1.8, 0.7, 1.5, 0.7⟩

/-- `self.market_conditions` (used when `market_context` is `None`). -/
def market_conditions : MarketContext :=
  { remote_work_trend := some 0.7, skill_shortage := some 0.6,
    economic_uncertainty := some 0.3 }

/-- `_detect_industry(job_data)`. -/
def detect_industry (job_data : JobData) : IndustryType :=
  let title := pyLower job_data.title
  let company := pyLower job_data.company_name
  let description := pyLower job_data.description
  let tech_keywords := ["software", "developer", "engineer", "programmer", "tech", "it",
    "data scientist", "ai", "ml"]
  if tech_keywords.any fun k => pyIn k title || pyIn k description then .technology
  else
    let finance_keywords := ["finance", "banking", "investment", "trading", "analyst",
      "accountant", "audit"]
    if finance_keywords.any fun k => pyIn k title || pyIn k description then .finance
    else
      let healthcare_keywords := ["health", "medical", "nurse", "doctor", "pharmaceutical",
        "clinical", "patient"]
      if healthcare_keywords.any fun k => pyIn k title || pyIn k description then .healthcare
      else
        let startup_keywords := ["startup", "scale", "growth", "venture", "funding",
          "series a", "series b"]
        if startup_keywords.any fun k => pyIn k company || pyIn k description then .startup
        else
          let enterprise_keywords := ["enterprise", "corporate", "fortune 500",
            "multinational", "global"]
          if enterprise_keywords.any fun k => pyIn k company || pyIn k description then .enterprise
          else .technology

/-- `_detect_career_stage(user_profile, job_data)` (the unused
`job_experience_req` variable of the source is dropped). -/
def detect_career_stage (user_profile : UserProfile) (job_data : JobData) : CareerStage :=
  let user_experience := user_profile.experience_years.getD 0
  let job_title := pyLower job_data.title
  if ["senior", "lead", "principal", "staff", "architect"].any fun k => pyIn k job_title then
    .senior
  else if ["manager", "director", "vp", "head of", "chief"].any fun k => pyIn k job_title then
    .lead
  else if ["ceo", "cto", "cfo", "president", "executive"].any fun k => pyIn k job_title then
    .executive
  else if ["junior", "entry", "associate", "trainee", "intern"].any fun k => pyIn k job_title then
    .entry
  else if user_experience < 1 then .entry
  else if user_experience < 3 then .junior
  else if user_experience < 7 then .mid
  else if user_experience < 12 then .senior
  else .lead

/-- `_apply_career_stage_adjustments(weights, career_stage)`. -/
def apply_career_stage_adjustments (weights : WeightConfig) (career_stage : CareerStage) :
    WeightConfig :=
  let adjustments := career_stage_adjustments career_stage
  { skill_weight := weights.skill_weight * adjustments.skill_weight
    experience_weight := weights.experience_weight * adjustments.experience_weight
    location_weight := weights.location_weight * adjustments.location_weight
    salary_weight := weights.salary_weight * adjustments.salary_weight
    semantic_weight := weights.semantic_weight * adjustments.semantic_weight
    market_demand_weight := weights.market_demand_weight
    career_growth_weight := weights.career_growth_weight }

/-- `_apply_user_preferences(weights, user_profile)`. -/
def apply_user_preferences (weights : WeightConfig) (user_profile : UserProfile) :
    WeightConfig :=
  let remote_preference := user_profile.remote_preference.getD 0.5
  let w1 := if remote_preference > 0.7 then
      { weights with location_weight := weights.location_weight * 0.5 }
    else weights
  let salary_sensitivity := user_profile.salary_sensitivity.getD 0.5
  let w2 := if salary_sensitivity > 0.7 then
      { w1 with salary_weight := w1.salary_weight * 1.3 }
    else w1
  let growth_focus := user_profile.career_growth_focus.getD 0.5
  if growth_focus > 0.7 then
    { w2 with career_growth_weight := w2.career_growth_weight * 2.0 }
  else w2

/-- `_apply_market_conditions(weights, market_context)`. -/
def apply_market_conditions (weights : WeightConfig) (market_context : MarketContext) :
    WeightConfig :=
  let remote_trend := market_context.remote_work_trend.getD 0.5
  let w1 := if remote_trend > 0.6 then
      { weights with location_weight := weights.location_weight * (1.0 - remote_trend * 0.3) }
    else weights
  let skill_shortage := market_context.skill_shortage.getD 0.5
  let w2 := if skill_shortage > 0.6 then
      { w1 with skill_weight := w1.skill_weight * (1.0 + skill_shortage * 0.2) }
    else w1
  let economic_uncertainty := market_context.economic_uncertainty.getD 0.5
  if economic_uncertainty > 0.6 then
    { w2 with salary_weight := w2.salary_weight * 0.8 }
  else w2

/-- The sum of the seven weights (the `total` of `_normalize_weights`). -/
def sumWeights (w : WeightConfig) : ℚ :=
  w.skill_weight + w.experience_weight + w.location_weight + w.salary_weight +
    w.semantic_weight + w.market_demand_weight + w.career_growth_weight

/-- `_normalize_weights(weights)`. -/
def normalize_weights (weights : WeightConfig) : WeightConfig :=
  let total := sumWeights weights
  if total = 0 then base_weights
  else
    { skill_weight := weights.skill_weight / total
      experience_weight := weights.experience_weight / total
      location_weight := weights.location_weight / total
      salary_weight := weights.salary_weight / total
      semantic_weight := weights.semantic_weight / total
      market_demand_weight := weights.market_demand_weight / total
      career_growth_weight := weights.career_growth_weight / total }

/-- The weights fed into `_normalize_weights` by `calculate_optimal_weights`
(steps 1–4 of the pipeline). -/
def pre_normalization_weights (user_profile : UserProfile) (job_data : JobData)
    (market_context : Option MarketContext) : WeightConfig :=
  let industry := detect_industry job_data
  let base := (industry_weights industry).getD base_weights
  let career_stage := detect_career_stage user_profile job_data
  let adjusted := apply_career_stage_adjustments base career_stage
  let user_adjusted := apply_user_preferences adjusted user_profile
  apply_market_conditions user_adjusted (market_context.getD market_conditions)

/-- `calculate_optimal_weights(user_profile, job_data, market_context)`
(the `except` branch of the source is unreachable in this pure model). -/
def calculate_optimal_weights (user_profile : UserProfile) (job_data : JobData)
    (market_context : Option MarketContext) : WeightConfig :=
  normalize_weights (pre_normalization_weights user_profile job_data market_context)

end DynamicWeightCalculator

/-! ### `app/services/job_matcher.py` — `JobMatcherService`

The spaCy-backed NLP service and the embedding-based semantic similarity are
floating-point external collaborators; they are abstracted as an oracle record.
Every theorem about the matcher holds for every oracle behaviour. -/

/-- Oracle for `nlp_service` and the semantic-similarity computation:
`available` is the truthiness of `nlp_service.nlp`; `semantic` stands for the
body of `calculate_semantic_similarity_enhanced` past its empty-text guard
(both the spaCy path and the TF-IDF fallback). -/
structure NlpOracle where
  available : Bool
  extract_skills : String → List String
  extract_experience_years : String → Option ℚ
  semantic : String → String → ℚ

/-- The candidate dictionary: every key read by `match_candidate_to_jobs` and
by the weight calculator (which receives the same dictionary). -/
structure CandidateData where
  skills : List String := []
  experience_years : Option ℚ := none
  location : String := ""
  salary_expectation : Option ℚ := none
  resume_text : String := ""
  remote_preference : Option ℚ := none
  salary_sensitivity : Option ℚ := none
  career_growth_focus : Option ℚ := none
deriving Repr

/-- The candidate dictionary as seen by `calculate_optimal_weights`. -/
def CandidateData.toProfile (c : CandidateData) : UserProfile :=
  { experience_years := c.experience_years
    remote_preference := c.remote_preference
    salary_sensitivity := c.salary_sensitivity
    career_growth_focus := c.career_growth_focus }

/-- The `JobMatch` dataclass of `app/services/job_matcher.py`. -/
structure JobMatch where
  job_id : Int
  match_score : ℚ
  skill_matches : List String
  missing_skills : List String
  match_reasons : List String
  experience_match : Bool
  location_match : Bool
  salary_match : Bool
deriving DecidableEq, Repr

namespace JobMatcherService

/-- The best-match fold of `_find_enhanced_skill_matches`: walk the candidate
skills keeping the first strict improvement over the running best similarity,
subject to the `> 0.7` threshold. -/
def bestOntologyMatch (normalized_job_skill : String) (candidate_skills : List String) :
    Option String × ℚ :=
  candidate_skills.foldl
    (fun acc candidate_skill =>
      let similarity := OntologyService.get_skill_similarity normalized_job_skill
        (pyStrip (pyLower candidate_skill))
      if similarity > acc.2 ∧ similarity > 0.7 then (some candidate_skill, similarity)
      else acc)
    (none, 0.0)

/-- The body of the `for job_skill in job_skills` loop of
`_find_enhanced_skill_matches` (each iteration appends at most one match). -/
def enhancedMatchFor (candidate_skills : List String) (job_skill : String) : Option String :=
  let normalized_candidate_skills := candidate_skills.map fun s => pyStrip (pyLower s)
  let normalized_job_skill := pyStrip (pyLower job_skill)
  if normalized_job_skill ∈ normalized_candidate_skills then
    candidate_skills.find? fun cs => pyStrip (pyLower cs) = normalized_job_skill
  else
    match (bestOntologyMatch normalized_job_skill candidate_skills).1 with
    | some best_match => some best_match
    | none =>
      match OntologyService.graphGet normalized_job_skill with
      | some job_skill_node =>
        let category_matches := candidate_skills.filter fun cs =>
          match OntologyService.graphGet (pyStrip (pyLower cs)) with
          | some n => n.category = job_skill_node.category
          | none => false
        category_matches.head?
      | none => none

/-- `_find_enhanced_skill_matches(candidate_skills, job_skills)`. -/
def find_enhanced_skill_matches (candidate_skills job_skills : List String) : List String :=
  (job_skills.filterMap (enhancedMatchFor candidate_skills)).dedup

/-- `_calculate_enhanced_skill_match_score` (the unused `resume_text`
parameter is dropped). Returns `(skill_score, all_matches, missing_required)`. -/
def calculate_enhanced_skill_match_score (candidate_skills required_skills preferred_skills :
    List String) : ℚ × List String × List String :=
  let candidate_skills_lower := candidate_skills.dedup.map pyLower
  let required_skills_lower := required_skills.map pyLower
  let preferred_skills_lower := preferred_skills.map pyLower
  let required_matches := find_enhanced_skill_matches candidate_skills_lower required_skills_lower
  let preferred_matches := find_enhanced_skill_matches candidate_skills_lower preferred_skills_lower
  let missing_required := required_skills_lower.filter fun skill =>
    skill ∉ required_matches.map pyLower
  let required_match_ratio : ℚ :=
    if required_skills_lower ≠ [] then required_matches.length / required_skills_lower.length else 0
  let preferred_match_ratio : ℚ :=
    if preferred_skills_lower ≠ [] then preferred_matches.length / preferred_skills_lower.length else 0
  let skill_score := required_match_ratio * 0.8 + preferred_match_ratio * 0.2
  let all_matches := (required_matches ++ preferred_matches).dedup
  (skill_score, all_matches, missing_required)

/-- `calculate_skill_match_score` with `use_enhanced_matching=True`
(as called by `match_candidate_to_jobs`). -/
def calculate_skill_match_score (candidate_skills required_skills preferred_skills :
    List String) : ℚ × List String × List String :=
  if candidate_skills = [] ∨ required_skills = [] then (0.0, [], required_skills)
  else calculate_enhanced_skill_match_score candidate_skills required_skills preferred_skills

/-- `calculate_experience_match_score`. -/
def calculate_experience_match_score (nlp : NlpOracle) (candidate_experience : Option ℚ)
    (min_experience max_experience : Option ℚ) (resume_text : String) : ℚ × Bool :=
  let candidate_experience :=
    if candidate_experience = none ∧ resume_text ≠ "" ∧ nlp.available then
      match nlp.extract_experience_years resume_text with
      | some extracted => some extracted
      | none => none
    else candidate_experience
  match candidate_experience with
  | none => (0.5, false)
  | some ce =>
    match min_experience, max_experience with
    | none, none => (1.0, true)
    | some mn, some mx =>
      if mn ≤ ce ∧ ce ≤ mx then (1.0, true)
      else if ce < mn then (max 0.0 (1.0 - (mn - ce) * 0.2), false)
      else (max 0.7 (1.0 - (ce - mx) * 0.1), ce ≤ mx + 2)
    | some mn, none =>
      if ce ≥ mn then (1.0, true)
      else (max 0.0 (1.0 - (mn - ce) * 0.2), false)
    | none, some _ => (1.0, true)

/-- `calculate_location_match_score`. -/
def calculate_location_match_score (candidate_location job_location remote_allowed : String) :
    ℚ × Bool :=
  if candidate_location = "" ∨ job_location = "" then (0.5, false)
  else if pyLower remote_allowed ∈ ["yes", "fully remote", "remote"] then (1.0, true)
  else
    let candidate_location_lower := pyLower candidate_location
    let job_location_lower := pyLower job_location
    if candidate_location_lower = job_location_lower then (1.0, true)
    else
      let candidate_parts := pySplitComma candidate_location_lower
      let job_parts := pySplitComma job_location_lower
      if pyStrip (candidate_parts.headD "") = pyStrip (job_parts.headD "") then (0.9, true)
      else if candidate_parts.length > 1 ∧ job_parts.length > 1 ∧
          pyStrip ((candidate_parts.get? 1).getD "") = pyStrip ((job_parts.get? 1).getD "") then
        (0.6, true)
      else if pyLower remote_allowed ∈ ["hybrid", "partial remote"] then (0.7, true)
      else (0.2, false)

/-- `calculate_salary_match_score`; `none` models the `ZeroDivisionError`
raised when `job_max_salary == 0` and the expectation exceeds it (caught by
the per-job `except` of the batch loop, which skips the job). -/
def calculate_salary_match_score (candidate_expectation job_min_salary job_max_salary :
    Option ℚ) : Option (ℚ × Bool) :=
  match candidate_expectation with
  | none => some (1.0, true)
  | some e =>
    match job_min_salary, job_max_salary with
    | some mn, some mx =>
      if mn ≤ e ∧ e ≤ mx then some (1.0, true)
      else if e < mn then some (1.0, true)
      else if mx = 0 then none
      else
        let diff_ratio := (e - mx) / mx
        some (max 0.0 (1.0 - diff_ratio * 2), false)
    | _, _ => some (1.0, true)

/-- `calculate_semantic_similarity_enhanced` (its empty-text guard; the
non-empty case is the NLP/TF-IDF oracle). -/
def calculate_semantic_similarity_enhanced (nlp : NlpOracle)
    (resume_text job_description : String) : ℚ :=
  if resume_text = "" ∨ job_description = "" then 0.0
  else nlp.semantic resume_text job_description

/-- `_generate_match_reasons`. -/
def generate_match_reasons (skill_score : ℚ) (experience_match location_match salary_match :
    Bool) (skill_match_count : Nat) (semantic_score : ℚ) : List String :=
  let reasons :=
    (if skill_score ≥ 0.8 then
      ["Excellent skills match (" ++ toString skill_match_count ++ " matching skills)"]
    else if skill_score ≥ 0.6 then
      ["Good skills alignment (" ++ toString skill_match_count ++ " matching skills)"]
    else if skill_score ≥ 0.4 then
      ["Moderate skills match (" ++ toString skill_match_count ++ " matching skills)"]
    else []) ++
    (if experience_match then ["Experience level matches requirements"] else []) ++
    (if location_match then ["Location compatible"] else []) ++
    (if salary_match then ["Salary expectations aligned"] else []) ++
    (if semantic_score ≥ 0.3 then ["Strong job description alignment"] else [])
  if reasons = [] then ["Basic compatibility found"] else reasons

/-- One iteration of the `for i, job in enumerate(jobs)` loop of
`match_candidate_to_jobs`: `none` when the job is skipped (inactive status,
or a scoring exception). `enhanced_candidate_skills` is computed once by the
caller and passed in. -/
def jobMatchOf (nlp : NlpOracle) (candidate_data : CandidateData)
    (enhanced_candidate_skills : List String) (job : JobData) : Option JobMatch :=
  if pyLower job.status ≠ "active" then none
  else
    let (skill_score, skill_matches, missing_skills) :=
      calculate_skill_match_score enhanced_candidate_skills job.required_skills
        job.preferred_skills
    let (experience_score, experience_match) :=
      calculate_experience_match_score nlp candidate_data.experience_years
        job.min_experience_years job.max_experience_years candidate_data.resume_text
    let (location_score, location_match) :=
      calculate_location_match_score candidate_data.location job.location
        job.remote_work_allowed
    match calculate_salary_match_score candidate_data.salary_expectation job.min_salary
        job.max_salary with
    | none => none
    | some (salary_score, salary_match) =>
      let semantic_score := calculate_semantic_similarity_enhanced nlp
        candidate_data.resume_text job.description
      let dynamic_weights := DynamicWeightCalculator.calculate_optimal_weights
        candidate_data.toProfile job none
      let overall_score :=
        skill_score * dynamic_weights.skill_weight +
        experience_score * dynamic_weights.experience_weight +
        location_score * dynamic_weights.location_weight +
        semantic_score * dynamic_weights.semantic_weight +
        salary_score * dynamic_weights.salary_weight +
        0.5 * dynamic_weights.market_demand_weight +
        0.5 * dynamic_weights.career_growth_weight
      let match_reasons := generate_match_reasons skill_score experience_match
        location_match salary_match skill_matches.length semantic_score
      some
        { job_id := job.id
          match_score := overall_score
          skill_matches := skill_matches
          missing_skills := missing_skills
          match_reasons := match_reasons
          experience_match := experience_match
          location_match := location_match
          salary_match := salary_match }

/-- The skill set enhanced once per batch from the resume text
(`set(candidate_skills)` extended by `nlp_service.extract_skills`). -/
def enhanced_candidate_skills (nlp : NlpOracle) (candidate_data : CandidateData) :
    List String :=
  (candidate_data.skills ++
    (if candidate_data.resume_text ≠ "" ∧ nlp.available then
      nlp.extract_skills candidate_data.resume_text
    else [])).dedup

/-- `match_candidate_to_jobs(candidate_data, jobs, top_k)`: skill enhancement
from the resume, per-job matching, stable descending sort on `match_score`
(`list.sort(..., reverse=True)`), truncation to `top_k`. -/
def match_candidate_to_jobs (nlp : NlpOracle) (candidate_data : CandidateData)
    (jobs : List JobData) (top_k : Nat := 10) : List JobMatch :=
  ((jobs.filterMap
      (jobMatchOf nlp candidate_data (enhanced_candidate_skills nlp candidate_data))).mergeSort
    fun a b => b.match_score ≤ a.match_score).take top_k

end JobMatcherService

/-! ### `app/job_recommendation_system/` — config, `SkillMatcher`, cache

`config/settings.py` defaults; `data/skill_graph.py` and `data/embeddings.py`
are not part of the sources, so transferability and embedding similarity are
oracle parameters. -/

/-- `Config` defaults from `config/settings.py` (the fields read by the
embedded functions). -/
structure RecConfig where
  skill_weight : ℚ := 0.30
  experience_weight : ℚ := 0.20
  location_weight : ℚ := 0.15
  career_growth_weight : ℚ := 0.10
  salary_weight : ℚ := 0.05
  market_demand_weight : ℚ := 0.10
  min_match_score : ℚ := 0.6
  skill_similarity_threshold : ℚ := 0.8
  transferable_skill_threshold : ℚ := 0.6
  experience_penalty_per_year : ℚ := 0.15
  over_experience_penalty : ℚ := 0.05
  remote_work_score : ℚ := 1.0
  same_location_score : ℚ := 1.0
  hybrid_work_score : ℚ := 0.8
  relocation_penalty : ℚ := 0.3
  senior_level_keywords : List String := ["senior", "lead", "principal", "staff", "architect"]
  junior_level_keywords : List String := ["junior", "entry", "associate", "trainee", "intern"]
deriving Repr

/-- Oracles for the skill matcher's external collaborators:
`transferability` is `SkillGraph.get_transferability`, `textSkillSim` is the
per-skill embedding similarity of `calculate_skill_similarity_batch`. -/
structure SkillOracles where
  transferability : String → String → ℚ
  textSkillSim : String → String → ℚ

/-- The result dictionary of `SkillMatcher.calculate_match`
(`transferable_matches` and `skill_gaps` are dicts, kept as key-value lists
whose keys are the deduplicated required skills, hence unique). -/
structure SkillAnalysis where
  score : ℚ
  exact_matches : List String
  semantic_matches : List String
  transferable_matches : List (String × ℚ)
  preferred_matches : List String
  missing_skills : List String
  skill_gaps : List (String × ℚ)
  required_skills : List String
  component_exact : ℚ
  component_semantic : ℚ
  component_transferable : ℚ
  component_preferred_bonus : ℚ
deriving Repr

namespace SkillMatcher

/-- `_standardize_skill_name`. -/
def standardize_skill_name (skill : String) : String :=
  let skill_mappings : List (String × String) := [
    ("ml", "machine learning"),
    ("ai", "artificial intelligence"),
    ("js", "javascript"),
    ("react.js", "react"),
    ("reactjs", "react"),
    ("node.js", "nodejs"),
    ("nodejs", "node.js"),
    ("aws cloud", "aws"),
    ("amazon web services", "aws"),
    ("google cloud", "gcp"),
    ("google cloud platform", "gcp"),
    ("microsoft azure", "azure"),
    ("data sci", "data science"),
    ("deep learning", "machine learning"),
    ("statistical analysis", "statistics"),
    ("statistical modeling", "statistics")]
  ((skill_mappings.find? fun p => p.1 = skill).map Prod.snd).getD skill

/-- `_normalize_skills`. -/
def normalize_skills (skills : List String) : List String :=
  (skills.filterMap fun skill =>
    if skill = "" then none
    else
      let normalized_skill := standardize_skill_name (pyStrip (pyLower skill))
      if normalized_skill = "" then none else some normalized_skill).dedup

/-- `_find_exact_matches` (`set & set`, listed without duplicates). -/
def find_exact_matches (candidate_skills required_skills : List String) : List String :=
  (candidate_skills.filter fun s => s ∈ required_skills).dedup

/-- `_find_semantic_matches`: required skills whose embedding similarity
against the resume text clears the threshold; empty resume text short-circuits. -/
def find_semantic_matches (oracles : SkillOracles) (config : RecConfig)
    (required_skills : List String) (resume_text : String) : List String :=
  if resume_text = "" then []
  else required_skills.filter fun skill =>
    oracles.textSkillSim resume_text skill > config.skill_similarity_threshold

/-- `_find_transferable_matches`: first candidate skill whose transferability
to the required skill clears the threshold wins (`break`). -/
def find_transferable_matches (oracles : SkillOracles) (config : RecConfig)
    (candidate_skills required_skills : List String) : List (String × ℚ) :=
  required_skills.filterMap fun required_skill =>
    (candidate_skills.findSome? fun candidate_skill =>
      let transferability := oracles.transferability candidate_skill required_skill
      if transferability > config.transferable_skill_threshold then some transferability
      else none).map fun t => (required_skill, t)

/-- `_find_preferred_matches`. -/
def find_preferred_matches (candidate_skills preferred_skills : List String) : List String :=
  (candidate_skills.filter fun s => s ∈ preferred_skills).dedup

/-- `_calculate_exact_score`. -/
def calculate_exact_score (exact_matches required_skills : List String) : ℚ :=
  if required_skills = [] then 0.0
  else exact_matches.length / required_skills.length

/-- `_calculate_semantic_score`. -/
def calculate_semantic_score (semantic_matches required_skills : List String) : ℚ :=
  if required_skills = [] then 0.0
  else semantic_matches.length / required_skills.length

/-- `_calculate_transferable_score`. -/
def calculate_transferable_score (transferable_matches : List (String × ℚ))
    (required_skills : List String) : ℚ :=
  if required_skills = [] then 0.0
  else (transferable_matches.map Prod.snd).sum / required_skills.length

/-- `_calculate_preferred_bonus`. -/
def calculate_preferred_bonus (preferred_matches preferred_skills : List String) : ℚ :=
  if preferred_skills = [] then 0.0
  else preferred_matches.length / preferred_skills.length * 0.1

/-- `_calculate_final_score`. -/
def calculate_final_score (exact_score semantic_score transferable_score preferred_bonus :
    ℚ) : ℚ :=
  min 1.0 (exact_score * 0.6 + semantic_score * 0.3 + transferable_score * 0.1 +
    preferred_bonus)

/-- `_calculate_skill_gaps`. -/
def calculate_skill_gaps (missing_skills : List String) : List (String × ℚ) :=
  missing_skills.map fun skill => (skill, 0.8)

/-- `_empty_skill_analysis`. -/
def empty_skill_analysis (required_skills : List String) : SkillAnalysis :=
  { score := 0.0, exact_matches := [], semantic_matches := [], transferable_matches := [],
    preferred_matches := [], missing_skills := required_skills,
    skill_gaps := required_skills.map fun skill => (skill, 1.0),
    required_skills := required_skills,
    component_exact := 0.0, component_semantic := 0.0, component_transferable := 0.0,
    component_preferred_bonus := 0.0 }

/-- `SkillMatcher.calculate_match`. -/
def calculate_match (oracles : SkillOracles) (config : RecConfig)
    (candidate_skills required_skills preferred_skills : List String)
    (resume_text : String) : SkillAnalysis :=
  if candidate_skills = [] ∨ required_skills = [] then empty_skill_analysis required_skills
  else
    let candidate_normalized := normalize_skills candidate_skills
    let required_normalized := normalize_skills required_skills
    let preferred_normalized := normalize_skills preferred_skills
    let exact_matches := find_exact_matches candidate_normalized required_normalized
    let semantic_matches := find_semantic_matches oracles config required_normalized resume_text
    let transferable_matches := find_transferable_matches oracles config candidate_normalized
      required_normalized
    let preferred_matches := find_preferred_matches candidate_normalized preferred_normalized
    let exact_score := calculate_exact_score exact_matches required_normalized
    let semantic_score := calculate_semantic_score semantic_matches required_normalized
    let transferable_score := calculate_transferable_score transferable_matches
      required_normalized
    let preferred_bonus := calculate_preferred_bonus preferred_matches preferred_normalized
    let final_score := calculate_final_score exact_score semantic_score transferable_score
      preferred_bonus
    let missing_skills := required_normalized.filter fun skill =>
      ¬(skill ∈ exact_matches ∨ skill ∈ semantic_matches ∨
        skill ∈ transferable_matches.map Prod.fst)
    { score := final_score
      exact_matches := exact_matches
      semantic_matches := semantic_matches
      transferable_matches := transferable_matches
      preferred_matches := preferred_matches
      missing_skills := missing_skills
      skill_gaps := calculate_skill_gaps missing_skills
      required_skills := required_normalized
      component_exact := exact_score
      component_semantic := semantic_score
      component_transferable := transferable_score
      component_preferred_bonus := preferred_bonus }

end SkillMatcher

/-! ### `app/job_recommendation_system/fast_recommendation_system.py` — match cache

The dataclasses `JobMatch`, `MatchResult`, `JobVector`, `ResumeVector` live in
the `models/` package, which is not among the sources; their fields are taken
from the constructor call sites in `fast_recommendation_system.py` and from
the specification's data model (§3 MatchResult: per-component sub-scores plus
matched / missing / transferable skill lists). -/

/-- Modelled from the spec: `models.database.ResumeVector` — the stored,
vectorized resume; fields as read by `_calculate_detailed_match` and
`_resume_to_profile` (the embedding itself is irrelevant here). -/
structure ResumeVector where
  candidate_id : String
  skills : List String := []
  experience_years : Option ℚ := none
  current_role : String := ""
  location : String := ""
  remote_preference : ℚ := 0.5
  salary_expectation : Option ℚ := none
deriving Repr

/-- Modelled from the spec: `models.database.JobVector` — the stored,
vectorized job posting; fields as read by `_calculate_detailed_match`. -/
structure JobVector where
  job_id : String
  title : String := ""
  location : String := ""
  remote_work_allowed : String := "No"
  required_skills : List String := []
  preferred_skills : List String := []
  min_experience_years : Option ℚ := none
  max_experience_years : Option ℚ := none
  min_salary : Option ℚ := none
  max_salary : Option ℚ := none
  status : String := "active"
deriving Repr

/-- Modelled from the spec: `models.match.JobMatch` — the recommendation
result; score fields from the constructor call sites, list fields defaulting
to empty and `market_demand_score` to `0.0` (the from-cache constructor omits
them). -/
structure FastJobMatch where
  job_id : String
  candidate_id : String
  match_score : ℚ
  confidence_score : ℚ
  skill_match_score : ℚ
  experience_match_score : ℚ
  location_match_score : ℚ
  career_growth_score : ℚ
  salary_match_score : ℚ
  skill_matches : List String := []
  missing_skills : List String := []
  transferable_skills : List String := []
  market_demand_score : ℚ := 0.0
deriving DecidableEq, Repr

/-- Modelled from the spec: `models.database.MatchResult` — one row of the
match cache, keyed by (candidate, job); exactly the fields written by
`_cache_match_result`. -/
structure CachedMatch where
  candidate_id : String
  job_id : String
  overall_score : ℚ
  skill_score : ℚ
  experience_score : ℚ
  location_score : ℚ
  career_growth_score : ℚ
  salary_score : ℚ
deriving DecidableEq, Repr

/-- Modelled from the spec: the match cache of `JobVectorDB` — a key-value
store over (candidate id, job id); `store` is last-writer-wins. -/
def MatchCache := List ((String × String) × CachedMatch)

/-- `self.db.get_match(candidate_id, job_id)`. -/
def MatchCache.get_match (cache : MatchCache) (candidate_id job_id : String) :
    Option CachedMatch :=
  ((cache.find? fun e => e.1 = (candidate_id, job_id)).map Prod.snd)

/-- `self.db.store_match(cached_match)` (new entry shadows any older one). -/
def MatchCache.store_match (cache : MatchCache) (m : CachedMatch) : MatchCache :=
  ((m.candidate_id, m.job_id), m) :: cache

/-! #### The five component scorers called by `_calculate_detailed_match`
(`services/experience_matcher.py`, `location_matcher.py`, `career_analyzer.py`,
`salary_analyzer.py`, `market_analyzer.py`). An `Option ℚ` result models the
`TypeError` a scorer raises when a `None` operand reaches a comparison; the
batch loop catches it and skips the job. -/

namespace ExperienceMatcher

/-- `ExperienceMatcher.calculate_match` — no `None` handling in the source:
the chained comparison `min <= cand <= max` raises (`none` here) when `min`
or `cand` is `None`, and — because it short-circuits — when `max` is `None`
it raises only if `min <= cand` holds. -/
def calculate_match (config : RecConfig) (candidate_experience min_required_experience
    max_required_experience : Option ℚ) : Option ℚ :=
  match min_required_experience, candidate_experience with
  | some mn, some ce =>
    if mn ≤ ce then
      match max_required_experience with
      | some mx =>
        if ce ≤ mx then some 1.0
        else
          let excess := ce - mx
          let penalty := excess * config.over_experience_penalty
          some (max 0.7 (1.0 - penalty))
      | none => none
    else
      let gap := mn - ce
      let penalty := gap * config.experience_penalty_per_year
      some (max 0.0 (1.0 - penalty))
  | _, _ => none

end ExperienceMatcher

namespace LocationMatcher

/-- `_is_same_location`. -/
def is_same_location (location1 location2 : String) : Bool :=
  if location1 = "" ∨ location2 = "" then false
  else
    let loc1 := pyStrip (pyLower location1)
    let loc2 := pyStrip (pyLower location2)
    if loc1 = loc2 then true
    else
      let city1 := pyStrip ((pySplitComma loc1).headD "")
      let city2 := pyStrip ((pySplitComma loc2).headD "")
      city1 = city2

/-- `_extract_state`. -/
def extract_state (location : String) : Option String :=
  let parts := pySplitComma location
  if parts.length > 1 then some (pyLower (pyStrip ((parts.get? 1).getD ""))) else none

/-- `_extract_country`. -/
def extract_country (location : String) : Option String :=
  let parts := pySplitComma location
  if parts.length > 2 then some (pyLower (pyStrip ((parts.get? 2).getD ""))) else none

/-- `_calculate_proximity_score` (`state1 and state2 and ...` treats the
empty string as falsy, like Python). -/
def calculate_proximity_score (location1 location2 : String) : ℚ :=
  if location1 = "" ∨ location2 = "" then 0.0
  else
    let state1 := extract_state location1
    let state2 := extract_state location2
    if state1.getD "" ≠ "" ∧ state2.getD "" ≠ "" ∧ state1 = state2 then 0.6
    else
      let country1 := extract_country location1
      let country2 := extract_country location2
      if country1.getD "" ≠ "" ∧ country2.getD "" ≠ "" ∧ country1 = country2 then 0.4
      else 0.2

/-- `LocationMatcher.calculate_match` (the `candidate_remote_preference`
parameter is accepted but never read, as in the source). -/
def calculate_match (config : RecConfig) (candidate_location job_location
    remote_work_allowed : String) (_candidate_remote_preference : ℚ) : ℚ :=
  let remote := pyLower remote_work_allowed
  if remote ∈ ["yes", "remote", "fully remote"] then config.remote_work_score
  else if is_same_location candidate_location job_location then config.same_location_score
  else if remote ∈ ["hybrid", "partial remote"] then config.hybrid_work_score
  else max config.relocation_penalty (calculate_proximity_score candidate_location
    job_location)

end LocationMatcher

namespace SalaryAnalyzer

/-- Python truthiness of an optional float (`not x` is true for `None` and
for `0.0`). -/
def falsy (x : Option ℚ) : Bool :=
  match x with
  | none => true
  | some v => v = 0

/-- `SalaryAnalyzer.calculate_match` (total: the guards ensure the
multiplications and the division never see `None` or a zero divisor). -/
def calculate_match (candidate_expectation job_min_salary job_max_salary : Option ℚ) : ℚ :=
  if falsy candidate_expectation ∨ (falsy job_min_salary ∧ falsy job_max_salary) then 1.0
  else
    let expectation := candidate_expectation.getD 0
    let mn := if falsy job_min_salary then job_max_salary.getD 0 * 0.8
      else job_min_salary.getD 0
    let mx := if falsy job_max_salary then mn * 1.2 else job_max_salary.getD 0
    if mn ≤ expectation ∧ expectation ≤ mx then 1.0
    else if expectation < mn then 1.0
    else
      let excess_ratio := (expectation - mx) / mx
      let penalty := min 0.7 (excess_ratio * 1.5)
      max 0.3 (1.0 - penalty)

end SalaryAnalyzer

namespace CareerAnalyzer

/-- `_load_career_paths`. -/
def career_paths : List (String × List String) := [
  ("data analyst", ["Senior Data Analyst", "Data Scientist", "Analytics Manager"]),
  ("junior developer", ["Senior Developer", "Tech Lead", "Engineering Manager"]),
  ("software engineer", ["Senior Engineer", "Tech Lead", "Engineering Manager"]),
  ("data scientist", ["Senior Data Scientist", "ML Engineer", "Data Science Manager"]),
  ("product manager", ["Senior Product Manager", "Product Director", "VP Product"]),
  ("marketing specialist", ["Marketing Manager", "Marketing Director", "VP Marketing"])]

/-- `_check_career_progression` (a dictionary hit whose next-role list does
not match falls through to the pattern check, as in the source). -/
def check_career_progression (current_role target_role : String) : ℚ :=
  let current_lower := pyLower current_role
  let target_lower := pyLower target_role
  let path_hit :=
    match career_paths.find? fun p => p.1 = current_lower with
    | some p => (p.2.map pyLower).any fun target => pyIn target target_lower
    | none => false
  if path_hit then 0.9
  else
    let progression_patterns : List (String × String) := [
      ("junior", "senior"), ("associate", "senior"), ("analyst", "scientist"),
      ("developer", "engineer"), ("engineer", "lead"), ("lead", "manager"),
      ("manager", "director")]
    if progression_patterns.any fun pat =>
        pyIn pat.1 current_lower && pyIn pat.2 target_lower then 0.8
    else if current_lower = target_lower then 0.6
    else 0.4

/-- `_infer_job_level`; raises (`none`) when no title keyword matches and
`min_experience` is `None` (then `None >= 5` is evaluated). -/
def infer_job_level (config : RecConfig) (job_title : String)
    (min_experience : Option ℚ) : Option Int :=
  let title_lower := pyLower job_title
  if config.senior_level_keywords.any fun k => pyIn k title_lower then some 2
  else if config.junior_level_keywords.any fun k => pyIn k title_lower then some 0
  else
    match min_experience with
    | none => none
    | some m => if m ≥ 5 then some 2 else if m ≥ 2 then some 1 else some 0

/-- `_check_level_appropriateness`. -/
def check_level_appropriateness (config : RecConfig) (candidate_level : Int)
    (job_title : String) (min_experience : Option ℚ) : Option ℚ :=
  (infer_job_level config job_title min_experience).map fun job_level =>
    if job_level = candidate_level + 1 then 0.9
    else if job_level = candidate_level then 0.7
    else if job_level = candidate_level - 1 then 0.5
    else 0.3

/-- `_check_advancement_potential`; `cand < min` raises on a `None` operand,
and `cand <= max` (reached only when `cand < min` is false) raises when
`max` is `None`. -/
def check_advancement_potential (candidate_experience min_required max_required :
    Option ℚ) : Option ℚ :=
  match candidate_experience, min_required with
  | some ce, some mn =>
    if ce < mn then some 0.9
    else
      match max_required with
      | some mx => if ce ≤ mx then some 0.8 else some 0.6
      | none => none
  | _, _ => none

/-- `calculate_growth_potential` on the `CandidateProfile` built by
`_resume_to_profile` (which passes `current_role`, `experience_years` and
the constant `career_level = 1`); the three checks are evaluated in source
order, so a raise in an earlier one pre-empts the later ones. -/
def calculate_growth_potential (config : RecConfig) (current_role : String)
    (career_level : Int) (experience_years : Option ℚ) (job_vector : JobVector) :
    Option ℚ :=
  let progression_score := check_career_progression current_role job_vector.title
  match check_level_appropriateness config career_level job_vector.title
      job_vector.min_experience_years with
  | none => none
  | some level_score =>
    match check_advancement_potential experience_years job_vector.min_experience_years
        job_vector.max_experience_years with
    | none => none
    | some advancement_score =>
      some (min 1.0 (progression_score * 0.4 + level_score * 0.3 +
        advancement_score * 0.3))

end CareerAnalyzer

namespace MarketAnalyzer

/-- `_get_title_demand`. -/
def get_title_demand (job_title : String) : ℚ :=
  let title_lower := pyLower job_title
  let high_demand_titles := ["data scientist", "machine learning engineer",
    "software engineer", "full stack developer", "devops engineer", "product manager",
    "data engineer", "ml engineer", "ai engineer"]
  let medium_demand_titles := ["data analyst", "business analyst", "frontend developer",
    "backend developer", "qa engineer", "project manager", "marketing manager",
    "sales manager"]
  if high_demand_titles.any fun t => pyIn t title_lower then 0.9
  else if medium_demand_titles.any fun t => pyIn t title_lower then 0.7
  else 0.5

/-- `_get_location_demand`. -/
def get_location_demand (location : String) : ℚ :=
  if location = "" then 0.5
  else
    let location_lower := pyLower location
    let high_demand_locations := ["san francisco", "new york", "seattle", "austin",
      "boston", "los angeles", "chicago", "denver"]
    let medium_demand_locations := ["atlanta", "dallas", "phoenix", "miami",
      "philadelphia", "detroit", "minneapolis"]
    if high_demand_locations.any fun l => pyIn l location_lower then 0.9
    else if medium_demand_locations.any fun l => pyIn l location_lower then 0.7
    else 0.5

/-- `_get_skills_demand`. -/
def get_skills_demand (skills : List String) : ℚ :=
  if skills = [] then 0.5
  else
    let high_demand_skills := ["python", "machine learning", "javascript", "react",
      "aws", "docker", "kubernetes", "sql", "data science"]
    let medium_demand_skills := ["java", "c++", "angular", "vue", "node.js",
      "mongodb", "postgresql", "git", "jenkins"]
    let high_count := (skills.filter fun skill => pyLower skill ∈ high_demand_skills).length
    let medium_count :=
      (skills.filter fun skill => pyLower skill ∈ medium_demand_skills).length
    min 1.0 ((high_count * 0.9 + medium_count * 0.7) / skills.length)

/-- `MarketAnalyzer.get_market_demand`. -/
def get_market_demand (job_title location : String) (required_skills : List String) : ℚ :=
  min 1.0 (get_title_demand job_title * 0.5 + get_location_demand location * 0.3 +
    get_skills_demand required_skills * 0.2)

end MarketAnalyzer

namespace FastRecommendationSystem

/-- `_calculate_overall_score`. -/
def calculate_overall_score (config : RecConfig) (skill_score experience_score location_score
    career_growth_score salary_score market_demand_score : ℚ) : ℚ :=
  skill_score * config.skill_weight +
  experience_score * config.experience_weight +
  location_score * config.location_weight +
  career_growth_score * config.career_growth_weight +
  salary_score * config.salary_weight +
  market_demand_score * config.market_demand_weight

/-- `_calculate_detailed_match(resume_vector, job_vector, similarity_score)`:
component scores in source order; `none` models the `try/except` returning
`None` when a scorer raises (experience or career-growth on `None` numeric
fields). On success, `confidence_score := similarity_score` and the skill
lists are taken from the skill analysis. -/
def calculate_detailed_match (oracles : SkillOracles) (config : RecConfig)
    (resume_vector : ResumeVector) (job_vector : JobVector)
    (similarity_score : ℚ) : Option FastJobMatch :=
  let skill_analysis := SkillMatcher.calculate_match oracles config resume_vector.skills
    job_vector.required_skills job_vector.preferred_skills ""
  match ExperienceMatcher.calculate_match config resume_vector.experience_years
      job_vector.min_experience_years job_vector.max_experience_years with
  | none => none
  | some experience_match =>
    let location_match := LocationMatcher.calculate_match config resume_vector.location
      job_vector.location job_vector.remote_work_allowed resume_vector.remote_preference
    match CareerAnalyzer.calculate_growth_potential config resume_vector.current_role 1
        resume_vector.experience_years job_vector with
    | none => none
    | some career_growth =>
      let salary_match := SalaryAnalyzer.calculate_match resume_vector.salary_expectation
        job_vector.min_salary job_vector.max_salary
      let market_demand := MarketAnalyzer.get_market_demand job_vector.title
        job_vector.location job_vector.required_skills
      let overall_score := calculate_overall_score config skill_analysis.score
        experience_match location_match career_growth salary_match market_demand
      some
        { job_id := job_vector.job_id
          candidate_id := resume_vector.candidate_id
          match_score := overall_score
          confidence_score := similarity_score
          skill_match_score := skill_analysis.score
          experience_match_score := experience_match
          location_match_score := location_match
          career_growth_score := career_growth
          salary_match_score := salary_match
          skill_matches := skill_analysis.exact_matches
          missing_skills := skill_analysis.missing_skills
          transferable_skills := skill_analysis.transferable_matches.map Prod.fst
          market_demand_score := market_demand }

/-- `_create_job_match_from_cache(cached_match, job_vector)`: rebuilds a
`JobMatch` from the six cached scores, hard-coding `confidence_score = 0.8`
and leaving the skill-list fields at their defaults. -/
def create_job_match_from_cache (cached_match : CachedMatch) (job_vector : JobVector) :
    FastJobMatch :=
  { job_id := job_vector.job_id
    candidate_id := cached_match.candidate_id
    match_score := cached_match.overall_score
    confidence_score := 0.8
    skill_match_score := cached_match.skill_score
    experience_match_score := cached_match.experience_score
    location_match_score := cached_match.location_score
    career_growth_score := cached_match.career_growth_score
    salary_match_score := cached_match.salary_score }

/-- `_cache_match_result(candidate_id, job_id, job_match)`. -/
def cache_match_result (cache : MatchCache) (candidate_id job_id : String)
    (job_match : FastJobMatch) : MatchCache :=
  cache.store_match
    { candidate_id := candidate_id
      job_id := job_id
      overall_score := job_match.match_score
      skill_score := job_match.skill_match_score
      experience_score := job_match.experience_match_score
      location_score := job_match.location_match_score
      career_growth_score := job_match.career_growth_score
      salary_score := job_match.salary_match_score }

/-- The per-job body of the recommendation loop of `get_job_recommendations`
(lines 145–159): consult the cache; on a hit rebuild from the cached row; on
a miss compute the detailed match and — only `if job_match:` — append and
write it back; when the detailed match errored (`None`) the job is neither
returned nor cached. Returns the produced match (if any) and the updated
cache. -/
def processJob (oracles : SkillOracles) (config : RecConfig) (cache : MatchCache)
    (resume_vector : ResumeVector) (job_vector : JobVector) (similarity_score : ℚ) :
    Option FastJobMatch × MatchCache :=
  match cache.get_match resume_vector.candidate_id job_vector.job_id with
  | some cached_match => (some (create_job_match_from_cache cached_match job_vector), cache)
  | none =>
    match calculate_detailed_match oracles config resume_vector job_vector
        similarity_score with
    | some job_match =>
      (some job_match, cache_match_result cache resume_vector.candidate_id
        job_vector.job_id job_match)
    | none => (none, cache)

end FastRecommendationSystem

/-! ### `ml_preferences/` — preference learning (trainer and weight smoothing)

Feature engineering and the scikit-learn fit are abstracted: features are an
arbitrary type `α`, the fitted model an arbitrary type `μ`, and the fit an
oracle function — the properties proved hold for every such behaviour. -/

/-- One feedback row as consumed by `ModelTrainer.prepare_training_data`
(`κ` is the `feedback['job']` payload handed to the feature engineer). -/
structure FeedbackItem (κ : Type) where
  job : κ
  is_bookmarked : Bool := false
  is_relevant : Bool := false
  is_hidden : Bool := false
  is_maybe_later : Bool := false

/-- Outcome dictionary of `ModelTrainer.train_user_model`. -/
structure TrainOutcome (μ : Type) where
  success : Bool
  error : String := ""
  model : Option μ := none

namespace ModelTrainer

/-- The label logic of the `for feedback in user_feedback_data` loop:
positive-and-not-hidden → 1, hidden-and-not-positive → 0, maybe-later → 0,
anything else is skipped (features appended then popped in the source, i.e. a
`filterMap`). -/
def labeledSample {κ α : Type} (extract : κ → α) (feedback : FeedbackItem κ) :
    Option (α × Nat) :=
  let is_positive := feedback.is_bookmarked || feedback.is_relevant
  let is_negative := feedback.is_hidden
  let is_neutral := feedback.is_maybe_later
  if is_positive ∧ ¬is_negative then some (extract feedback.job, 1)
  else if is_negative ∧ ¬is_positive then some (extract feedback.job, 0)
  else if is_neutral then some (extract feedback.job, 0)
  else none

/-- The `(features_list, labels)` pairs accumulated by the feedback loop. -/
def trainingSamples {κ α : Type} (extract : κ → α)
    (user_feedback_data : List (FeedbackItem κ)) : List (α × Nat) :=
  user_feedback_data.filterMap (labeledSample extract)

/-- `prepare_training_data(user_feedback_data)`; `.error` models the raised
`ValueError`s. -/
def prepare_training_data {κ α : Type} (extract : κ → α) (min_feedback_threshold : Nat)
    (user_feedback_data : List (FeedbackItem κ)) : Except String (List (α × Nat)) :=
  if user_feedback_data.length < min_feedback_threshold then
    .error "Not enough feedback data"
  else if (trainingSamples extract user_feedback_data).length = 0 then
    .error "No valid training data after filtering"
  else if ((trainingSamples extract user_feedback_data).map Prod.snd).dedup.length < 2 then
    .error "Only one class present in training data"
  else .ok (trainingSamples extract user_feedback_data)

/-- `train_user_model(user_id, user_feedback_data)`: the raised errors of
`prepare_training_data` are caught and returned as a failure outcome; the
split / scale / `LogisticRegression` fit / evaluation is the oracle `fit`,
reached only on success. -/
def train_user_model {κ α μ : Type} (extract : κ → α) (fit : List (α × Nat) → μ)
    (min_feedback_threshold : Nat) (user_feedback_data : List (FeedbackItem κ)) :
    TrainOutcome μ :=
  match prepare_training_data extract min_feedback_threshold user_feedback_data with
  | .error e => { success := false, error := e }
  | .ok samples =>
    if samples.length < min_feedback_threshold then
      { success := false, error := "Not enough training data" }
    else if (samples.map Prod.snd).dedup.length < 2 then
      { success := false, error := "Only one class present in training data" }
    else { success := true, model := some (fit samples) }

/-- The per-user step of `train_all_models` (`ml_preferences/main.py`): on a
successful fit the weight updater runs (`updateWeights` stands for
`update_user_weights`' effect on the user's stored `UserWeightAdjustments`
row `adj`); on failure the row is only logged about — never touched. -/
def trainStep {κ α μ σ : Type} (extract : κ → α) (fit : List (α × Nat) → μ)
    (updateWeights : σ → σ) (min_feedback_threshold : Nat) (adj : σ)
    (user_feedback_data : List (FeedbackItem κ)) : σ × TrainOutcome μ :=
  let result := train_user_model extract fit min_feedback_threshold user_feedback_data
  if result.success then (updateWeights adj, result) else (adj, result)

end ModelTrainer

namespace WeightUpdater

/-- `_smooth_value(current_value, smoothing_factor)`: exponential smoothing
towards the neutral multiplier `1.0`. -/
def smooth_value (current_value smoothing_factor : ℚ) : ℚ :=
  current_value * (1 - smoothing_factor) + 1.0 * smoothing_factor

/-- `n` repeated applications of the smoothing step with factor `α`
(the "repeated smoothing with no new feedback" of the specification). -/
def smoothIter (smoothing_factor : ℚ) (n : Nat) (v : ℚ) : ℚ :=
  (fun value => smooth_value value smoothing_factor)^[n] v

end WeightUpdater

/-! ### Concrete inputs used by witnesses and counterexamples -/

/-- Concrete feedback set for the C6 witness: ten bookmarked rows (all labels
are the positive class). -/
def c6Feedback : List (FeedbackItem Nat) :=
  List.replicate 10 { job := 0, is_bookmarked := true }

/-- Constant-zero oracles for concrete skill-matcher runs. -/
def zeroSkillOracles : SkillOracles := ⟨fun _ _ => 0, fun _ _ => 0⟩


/-- Concrete resume for the C2 cache round-trip (numeric fields present, so
no component scorer raises). -/
def c2Resume : ResumeVector :=
  { candidate_id := "c1", skills := ["Python"], experience_years := some 4 }

/-- Concrete job for the C2 cache round-trip. -/
def c2Job : JobVector :=
  { job_id := "j1", title := "x", required_skills := ["Python"],
    min_experience_years := some 2, max_experience_years := some 5 }

/-- The detailed match the first call computes for (c2Resume, c2Job):
skill 3/5, experience 1, location 3/10, career growth 61/100, salary 1,
market demand 29/50, overall 297/500, confidence = the FAISS similarity 1/2. -/
def c2Detailed : FastJobMatch :=
  { job_id := "j1", candidate_id := "c1", match_score := 297/500,
    confidence_score := 1/2, skill_match_score := 3/5, experience_match_score := 1,
    location_match_score := 3/10, career_growth_score := 61/100,
    salary_match_score := 1, skill_matches := ["python"], missing_skills := [],
    transferable_skills := [], market_demand_score := 29/50 }

/-- First recommendation call for (c2Resume, c2Job): empty cache, FAISS
similarity `1/2`. -/
def c2FirstCall : Option FastJobMatch × MatchCache :=
  FastRecommendationSystem.processJob zeroSkillOracles {} [] c2Resume c2Job (1/2)

/-- Second, identical recommendation call, against the cache the first call
produced. -/
def c2SecondCall : Option FastJobMatch × MatchCache :=
  FastRecommendationSystem.processJob zeroSkillOracles {} c2FirstCall.2 c2Resume c2Job
    (1/2)

/-- All seven weights non-negative (the specification's invariant). -/
def NonnegWeights (w : WeightConfig) : Prop :=
  0 ≤ w.skill_weight ∧ 0 ≤ w.experience_weight ∧ 0 ≤ w.location_weight ∧
  0 ≤ w.salary_weight ∧ 0 ≤ w.semantic_weight ∧ 0 ≤ w.market_demand_weight ∧
  0 ≤ w.career_growth_weight

/-- A minimal active job (title `"x"` matches no industry / stage keyword). -/
def jobX : JobData := { id := 1, title := "x", status := "active" }

/-- An empty candidate dictionary. -/
def candE : CandidateData := {}

/-- Oracle for a deployment without spaCy (`nlp_service.nlp` falsy). -/
def nlpNone : NlpOracle := ⟨false, fun _ => [], fun _ => none, fun _ _ => 0⟩

/-- Market context with an out-of-scale remote-work trend of `4`. -/
def ctxNeg : MarketContext := { remote_work_trend := some 4 }

/-- Market context tuned so the pre-normalization weight sum is exactly `0`. -/
def ctxZero : MarketContext := { remote_work_trend := some (1115/36) }

/-- The single `JobMatch` produced for (candE, jobX). -/
def c5Match : JobMatch :=
  { job_id := 1, match_score := 912/5449, skill_matches := [], missing_skills := [],
    match_reasons := ["Salary expectations aligned"], experience_match := false,
    location_match := false, salary_match := true }

/-! ## Helper lemmas and claim theorems -/

namespace OntologyService

lemma find?_eq_some_of_mem_of_nodup {α β : Type} [DecidableEq α]
    (l : List (α × β)) (hnd : (l.map Prod.fst).Nodup) {k : α} {v : β}
    (hm : (k, v) ∈ l) : (l.find? fun p => p.1 = k) = some (k, v) := by
  induction l with
  | nil => simp at hm
  | cons hd tl ih =>
    rcases List.mem_cons.mp hm with h | h
    · subst h
      exact List.find?_cons_of_pos _ (by simp)
    · have hk : k ∈ tl.map Prod.fst := List.mem_map.mpr ⟨(k, v), h, rfl⟩
      have hhd : hd.1 ≠ k := by
        intro e
        have := (List.nodup_cons.mp hnd).1
        exact this (e ▸ hk)
      rw [List.find?_cons_of_neg _ (by simp [hhd])]
      exact ih (List.nodup_cons.mp hnd).2 h

lemma keysNodup : (skillsGraph.map Prod.fst).Nodup := by decide

lemma graphGet_of_mem {k : String} {n : SkillNode} (h : (k, n) ∈ skillsGraph) :
    graphGet k = some n := by
  rw [graphGet, find?_eq_some_of_mem_of_nodup _ keysNodup h]
  rfl

lemma mem_relationshipsGet {s r : String} (h : r ∈ relationshipsGet s) :
    ∃ p ∈ skillsGraph, ∃ x ∈ p.2.related_skills, (graphGet x).isSome ∧
      ((s = p.1 ∧ r = x) ∨ (s = x ∧ r = p.1)) := by
  simp only [relationshipsGet, skillRelationEdges, List.mem_map, List.mem_filter,
    List.mem_flatMap, List.mem_cons, List.mem_singleton, decide_eq_true_eq,
    List.not_mem_nil, or_false] at h
  obtain ⟨⟨a, b⟩, ⟨⟨p, hp, x, ⟨hxmem, hxsome⟩, hpair⟩, heq⟩, rfl⟩ := h
  refine ⟨p, hp, x, hxmem, hxsome, ?_⟩
  rcases hpair with h1 | h1
  · left
    have ha := congrArg Prod.fst h1
    have hb := congrArg Prod.snd h1
    simp only at ha hb
    exact ⟨heq ▸ ha, hb⟩
  · right
    have ha := congrArg Prod.fst h1
    have hb := congrArg Prod.snd h1
    simp only at ha hb
    exact ⟨heq ▸ ha, hb⟩

end OntologyService

namespace OntologyService

/-- The `0.6` "relationship" tier of `get_skill_similarity` is dead code: its
guard implies the earlier `related_skills` guard, which already returned. -/
lemma relationship_tier_subsumed {s1 s2 : String} {n1 n2 : SkillNode}
    (h1 : graphGet (pyLower s1) = some n1) (h2 : graphGet (pyLower s2) = some n2)
    (h : pyLower s2 ∈ relationshipsGet (pyLower s1)) :
    pyLower s2 ∈ n1.related_skills ∨ pyLower s1 ∈ n2.related_skills := by
  obtain ⟨p, hp, x, hxmem, _, hcase | hcase⟩ := mem_relationshipsGet h
  · left
    obtain ⟨hk, hx⟩ := hcase
    have : graphGet (pyLower s1) = some p.2 := by
      rw [hk]; exact graphGet_of_mem (by simpa using hp)
    rw [h1] at this
    rw [hx, Option.some_inj.mp this]
    exact hxmem
  · right
    obtain ⟨hx, hk⟩ := hcase
    have : graphGet (pyLower s2) = some p.2 := by
      rw [hk]; exact graphGet_of_mem (by simpa using hp)
    rw [h2] at this
    rw [hx, Option.some_inj.mp this]
    exact hxmem

/-- `get_skill_similarity` agrees everywhere with the specification's
priority list (in particular it never returns `0.6`). -/
lemma similarity_eq_spec (s1 s2 : String) :
    get_skill_similarity s1 s2 = specSimilarity s1 s2 := by
  unfold get_skill_similarity specSimilarity
  by_cases he : s1 = s2
  · simp [he]
  · simp only [if_neg he]
    cases h1 : graphGet (pyLower s1) with
    | none => rfl
    | some n1 =>
      cases h2 : graphGet (pyLower s2) with
      | none => rfl
      | some n2 =>
        by_cases hsyn : pyLower s1 ∈ n2.synonyms ∨ pyLower s2 ∈ n1.synonyms
        · simp [hsyn]
        · simp only [if_neg hsyn]
          by_cases hrel : pyLower s2 ∈ n1.related_skills ∨ pyLower s1 ∈ n2.related_skills
          · simp [hrel]
          · simp only [if_neg hrel]
            by_cases hcat : n1.category = n2.category
            · simp [hcat]
            · simp only [if_neg hcat]
              have hedge : pyLower s2 ∉ relationshipsGet (pyLower s1) := fun h =>
                hrel (relationship_tier_subsumed h1 h2 h)
              simp [hedge]

/-- Every tier of the specification's priority list is a symmetric condition. -/
lemma spec_similarity_symm (s1 s2 : String) :
    specSimilarity s1 s2 = specSimilarity s2 s1 := by
  unfold specSimilarity
  by_cases he : s1 = s2
  · simp [he]
  · have he' : ¬ s2 = s1 := fun h => he h.symm
    simp only [if_neg he, if_neg he']
    cases h1 : graphGet (pyLower s1) with
    | none =>
      cases h2 : graphGet (pyLower s2) with
      | none => rfl
      | some n2 => rfl
    | some n1 =>
      cases h2 : graphGet (pyLower s2) with
      | none => rfl
      | some n2 =>
        exact if_congr or_comm rfl (if_congr or_comm rfl (if_congr eq_comm rfl rfl))

end OntologyService

namespace WeightUpdater

/-- Closed form of the iterated smoothing step. -/
lemma smoothIter_closed_form (α v : ℚ) (n : ℕ) :
    smoothIter α n v = 1 + (1 - α) ^ n * (v - 1) := by
  induction n with
  | zero => simp [smoothIter]
  | succ n ih =>
    have hstep : smoothIter α (n + 1) v = smooth_value (smoothIter α n v) α := by
      simp only [smoothIter, Function.iterate_succ_apply']
    rw [hstep, ih, smooth_value]
    ring

end WeightUpdater

open WeightUpdater

/-- C7: with `0 < α < 1`, repeated application of
`value = value*(1-α) + 1.0*α` moves a multiplier monotonically towards `1.0`,
a value ≤ 1 stays ≤ 1 (and one ≥ 1 stays ≥ 1), and the iterates converge
to `1.0`. -/
theorem C7_smoothing_monotone_and_converges (v α : ℚ) (h0 : 0 < α) (h1 : α < 1)
    (n : ℕ) (ε : ℚ) (hε : 0 < ε) :
    (v ≤ 1 → smoothIter α n v ≤ smoothIter α (n + 1) v ∧ smoothIter α n v ≤ 1) ∧
    (1 ≤ v → smoothIter α (n + 1) v ≤ smoothIter α n v ∧ 1 ≤ smoothIter α n v) ∧
    (∃ N, ∀ m ≥ N, |smoothIter α m v - 1| < ε) := by
  have hc0 : (0:ℚ) ≤ 1 - α := by linarith
  have hc1 : 1 - α < 1 := by linarith
  have hpow : ∀ m : ℕ, (0:ℚ) ≤ (1 - α) ^ m := fun m => pow_nonneg hc0 m
  have hid : (1 - α) ^ (n + 1) * (v - 1)
      = (1 - α) ^ n * (v - 1) - α * ((1 - α) ^ n * (v - 1)) := by ring
  refine ⟨?_, ?_, ?_⟩
  · intro hv
    have hd : v - 1 ≤ 0 := by linarith
    have hm1 : (1 - α) ^ n * (v - 1) ≤ 0 := mul_nonpos_of_nonneg_of_nonpos (hpow n) hd
    have hm2 : α * ((1 - α) ^ n * (v - 1)) ≤ 0 :=
      mul_nonpos_of_nonneg_of_nonpos h0.le hm1
    rw [smoothIter_closed_form, smoothIter_closed_form, hid]
    exact ⟨by linarith, by linarith⟩
  · intro hv
    have hd : 0 ≤ v - 1 := by linarith
    have hm1 : 0 ≤ (1 - α) ^ n * (v - 1) := mul_nonneg (hpow n) hd
    have hm2 : 0 ≤ α * ((1 - α) ^ n * (v - 1)) := mul_nonneg h0.le hm1
    rw [smoothIter_closed_form, smoothIter_closed_form, hid]
    exact ⟨by linarith, by linarith⟩
  · by_cases hv : v = 1
    · refine ⟨0, fun m _ => ?_⟩
      rw [smoothIter_closed_form, hv]
      simpa using hε
    · have hd : 0 < |v - 1| := abs_pos.mpr (sub_ne_zero.mpr hv)
      obtain ⟨N, hN⟩ := exists_pow_lt_of_lt_one (div_pos hε hd) hc1
      refine ⟨N, fun m hm => ?_⟩
      rw [smoothIter_closed_form]
      have h2 : |1 + (1 - α) ^ m * (v - 1) - 1| = (1 - α) ^ m * |v - 1| := by
        rw [add_sub_cancel_left, abs_mul, abs_of_nonneg (hpow m)]
      rw [h2]
      have h3 : (1 - α) ^ m ≤ (1 - α) ^ N :=
        pow_le_pow_of_le_one hc0 (by linarith) hm
      have h4 : (1 - α) ^ N * |v - 1| < ε := (lt_div_iff₀ hd).mp hN
      have h5 : (1 - α) ^ m * |v - 1| ≤ (1 - α) ^ N * |v - 1| :=
        mul_le_mul_of_nonneg_right h3 hd.le
      linarith

/-- Closed-input check of `C7_smoothing_monotone_and_converges` at
`v = 2`, `α = 1/10`, `n = 3`, `ε = 1/100`. -/
theorem C7_smoothing_witness :
    0 < (1/10 : ℚ) ∧ (1/10 : ℚ) < 1 ∧ 0 < (1/100 : ℚ) ∧
    (((2:ℚ) ≤ 1 →
      smoothIter (1/10) 3 2 ≤ smoothIter (1/10) 4 2 ∧ smoothIter (1/10) 3 2 ≤ 1) ∧
    ((1:ℚ) ≤ 2 →
      smoothIter (1/10) 4 2 ≤ smoothIter (1/10) 3 2 ∧ 1 ≤ smoothIter (1/10) 3 2) ∧
    (∃ N, ∀ m ≥ N, |smoothIter (1/10) m 2 - 1| < 1/100)) :=
  ⟨by norm_num, by norm_num, by norm_num,
    C7_smoothing_monotone_and_converges 2 (1/10) (by norm_num) (by norm_num) 3 (1/100)
      (by norm_num)⟩

/-- A list whose elements are pairwise equal has at most one distinct value. -/
lemma dedup_length_le_one {l : List ℕ} (h : ∀ x ∈ l, ∀ y ∈ l, x = y) :
    l.dedup.length ≤ 1 := by
  match hd : l.dedup with
  | [] => simp
  | [a] => simp
  | a :: b :: t =>
    exfalso
    have ha : a ∈ l.dedup := by rw [hd]; exact List.mem_cons_self a (b :: t)
    have hb : b ∈ l.dedup := by rw [hd]; simp
    have hnd := l.nodup_dedup
    rw [hd] at hnd
    have hab : a ≠ b := by
      intro e
      exact (List.nodup_cons.mp hnd).1 (e ▸ List.mem_cons_self b t)
    exact hab (h a (List.mem_dedup.mp ha) b (List.mem_dedup.mp hb))

/-- Under a single-class feedback set, `prepare_training_data` always raises. -/
lemma prepare_training_data_single_class_error {κ α : Type} (extract : κ → α)
    (threshold : Nat) (fbs : List (FeedbackItem κ))
    (hsingle : ∀ x ∈ (ModelTrainer.trainingSamples extract fbs).map Prod.snd,
      ∀ y ∈ (ModelTrainer.trainingSamples extract fbs).map Prod.snd, x = y) :
    ∃ e ∈ ["Not enough feedback data", "No valid training data after filtering",
        "Only one class present in training data"],
      ModelTrainer.prepare_training_data extract threshold fbs = Except.error e := by
  have hle := dedup_length_le_one hsingle
  unfold ModelTrainer.prepare_training_data
  split_ifs with h1 h2 h3
  · exact ⟨_, by simp, rfl⟩
  · exact ⟨_, by simp, rfl⟩
  · exact ⟨_, by simp, rfl⟩
  · exact absurd (by omega :
      (((ModelTrainer.trainingSamples extract fbs).map Prod.snd).dedup.length < 2)) h3

/-- C6: a feedback set whose (post-filtering) labels form a single class makes
the per-user training step fail with one of the insufficient-data errors, fits
no model, and leaves the user's stored weight-adjustment row untouched —
for every feature extractor, fitting procedure, weight updater and threshold. -/
theorem C6_single_class_training_leaves_adjustments (κ α μ σ : Type) (extract : κ → α)
    (fit : List (α × Nat) → μ) (updateWeights : σ → σ) (threshold : Nat) (adj : σ)
    (fbs : List (FeedbackItem κ))
    (hsingle : ∀ x ∈ (ModelTrainer.trainingSamples extract fbs).map Prod.snd,
      ∀ y ∈ (ModelTrainer.trainingSamples extract fbs).map Prod.snd, x = y) :
    (ModelTrainer.trainStep extract fit updateWeights threshold adj fbs).1 = adj ∧
    (ModelTrainer.trainStep extract fit updateWeights threshold adj fbs).2.success = false ∧
    (ModelTrainer.trainStep extract fit updateWeights threshold adj fbs).2.model = none ∧
    (ModelTrainer.trainStep extract fit updateWeights threshold adj fbs).2.error ∈
      ["Not enough feedback data", "No valid training data after filtering",
       "Only one class present in training data"] := by
  obtain ⟨e, hmem, he⟩ := prepare_training_data_single_class_error extract threshold fbs hsingle
  have houtcome : ModelTrainer.train_user_model extract fit threshold fbs
      = { success := false, error := e, model := none } := by
    unfold ModelTrainer.train_user_model
    rw [he]
  refine ⟨?_, ?_, ?_, ?_⟩ <;>
    simp [ModelTrainer.trainStep, houtcome, hmem]


/-- Closed-input check of `C6_single_class_training_leaves_adjustments`. -/
theorem C6_single_class_witness :
    (∀ x ∈ (ModelTrainer.trainingSamples id c6Feedback).map Prod.snd,
      ∀ y ∈ (ModelTrainer.trainingSamples id c6Feedback).map Prod.snd, x = y) ∧
    (ModelTrainer.trainStep id (fun l => l.length) Nat.succ 10 0 c6Feedback).1 = 0 ∧
    (ModelTrainer.trainStep id (fun l => l.length) Nat.succ 10 0 c6Feedback).2.success
      = false ∧
    (ModelTrainer.trainStep id (fun l => l.length) Nat.succ 10 0 c6Feedback).2.model
      = none ∧
    (ModelTrainer.trainStep id (fun l => l.length) Nat.succ 10 0 c6Feedback).2.error ∈
      ["Not enough feedback data", "No valid training data after filtering",
       "Only one class present in training data"] := by
  have h := C6_single_class_training_leaves_adjustments Nat Nat Nat Nat id
    (fun l => l.length) Nat.succ 10 0 c6Feedback (by decide)
  exact ⟨by decide, h.1, h.2.1, h.2.2.1, h.2.2.2⟩

namespace SkillMatcher

lemma calculate_exact_score_eq (em rs : List String) :
    calculate_exact_score em rs = (em.length : ℚ) / rs.length := by
  unfold calculate_exact_score
  split_ifs with h
  · norm_num [h]
  · rfl

lemma calculate_semantic_score_eq (sm rs : List String) :
    calculate_semantic_score sm rs = (sm.length : ℚ) / rs.length := by
  unfold calculate_semantic_score
  split_ifs with h
  · norm_num [h]
  · rfl

lemma calculate_transferable_score_eq (tm : List (String × ℚ)) (rs : List String) (h : rs = [] → tm = []) :
    calculate_transferable_score tm rs = (tm.map Prod.snd).sum / rs.length := by
  unfold calculate_transferable_score
  split_ifs with he
  · norm_num [he, h he]
  · rfl

lemma preferred_bonus_nonneg (pm ps : List String) :
    0 ≤ calculate_preferred_bonus pm ps := by
  unfold calculate_preferred_bonus
  split_ifs with h
  · norm_num
  · positivity

lemma nodup_dedup_filter_length_le (xs ys : List String) :
    ((xs.filter fun s => s ∈ ys).dedup).length ≤ ys.length := by
  have hsub : (xs.filter fun s => s ∈ ys).dedup ⊆ ys := by
    intro a ha
    have := List.mem_dedup.mp ha
    have := List.mem_filter.mp this
    simpa using this.2
  exact ((xs.filter fun s => s ∈ ys).nodup_dedup.subperm hsub).length_le

lemma normalize_skills_nodup (skills : List String) : (normalize_skills skills).Nodup := by
  unfold normalize_skills
  exact List.nodup_dedup _

lemma preferred_bonus_le (cs ps : List String) :
    calculate_preferred_bonus (find_preferred_matches cs (normalize_skills ps))
      (normalize_skills ps) ≤ 1/10 := by
  unfold calculate_preferred_bonus
  split_ifs with h
  · norm_num
  · have hlen := nodup_dedup_filter_length_le cs (normalize_skills ps)
    have hpos : (0:ℚ) < (normalize_skills ps).length := by
      have : (normalize_skills ps).length ≠ 0 := fun e => h (List.length_eq_zero.mp e)
      positivity
    unfold find_preferred_matches
    rw [div_mul_eq_mul_div, div_le_iff₀ hpos]
    have : ((List.filter (fun s => decide (s ∈ normalize_skills ps)) cs).dedup.length : ℚ)
        ≤ ((normalize_skills ps).length : ℚ) := by exact_mod_cast hlen
    nlinarith

end SkillMatcher

/-- C4: for non-empty candidate and required skill lists, the skill matcher's
final score is `0.6·exact_ratio + 0.3·semantic_ratio + 0.1·transferable_ratio
+ preferred bonus`, capped at `1.0`, where the bonus lies in `[0, 0.1]`; and
the missing-skill list is exactly the (normalized) required skills with no
exact, semantic or transferable match. Holds for every transferability /
embedding oracle and configuration. -/
theorem C4_skill_matcher_score_and_missing (oracles : SkillOracles) (config : RecConfig)
    (candidate_skills required_skills preferred_skills : List String) (resume_text : String)
    (hc : candidate_skills ≠ []) (hr : required_skills ≠ []) :
    (SkillMatcher.calculate_match oracles config candidate_skills required_skills
        preferred_skills resume_text).score
      = min 1.0
        ((SkillMatcher.calculate_match oracles config candidate_skills required_skills
            preferred_skills resume_text).exact_matches.length /
          ((SkillMatcher.calculate_match oracles config candidate_skills required_skills
            preferred_skills resume_text).required_skills.length : ℚ) * 0.6 +
         (SkillMatcher.calculate_match oracles config candidate_skills required_skills
            preferred_skills resume_text).semantic_matches.length /
          ((SkillMatcher.calculate_match oracles config candidate_skills required_skills
            preferred_skills resume_text).required_skills.length : ℚ) * 0.3 +
         ((SkillMatcher.calculate_match oracles config candidate_skills required_skills
            preferred_skills resume_text).transferable_matches.map Prod.snd).sum /
          ((SkillMatcher.calculate_match oracles config candidate_skills required_skills
            preferred_skills resume_text).required_skills.length : ℚ) * 0.1 +
         (SkillMatcher.calculate_match oracles config candidate_skills required_skills
            preferred_skills resume_text).component_preferred_bonus) ∧
    0 ≤ (SkillMatcher.calculate_match oracles config candidate_skills required_skills
        preferred_skills resume_text).component_preferred_bonus ∧
    (SkillMatcher.calculate_match oracles config candidate_skills required_skills
        preferred_skills resume_text).component_preferred_bonus ≤ 1/10 ∧
    (∀ s, s ∈ (SkillMatcher.calculate_match oracles config candidate_skills required_skills
        preferred_skills resume_text).missing_skills ↔
      (s ∈ (SkillMatcher.calculate_match oracles config candidate_skills required_skills
          preferred_skills resume_text).required_skills ∧
       s ∉ (SkillMatcher.calculate_match oracles config candidate_skills required_skills
          preferred_skills resume_text).exact_matches ∧
       s ∉ (SkillMatcher.calculate_match oracles config candidate_skills required_skills
          preferred_skills resume_text).semantic_matches ∧
       ∀ t : ℚ, (s, t) ∉ (SkillMatcher.calculate_match oracles config candidate_skills
          required_skills preferred_skills resume_text).transferable_matches)) := by
  have hguard : ¬(candidate_skills = [] ∨ required_skills = []) := not_or.mpr ⟨hc, hr⟩
  simp only [SkillMatcher.calculate_match, if_neg hguard]
  refine ⟨?_, ?_, ?_, ?_⟩
  · have htm : SkillMatcher.normalize_skills required_skills = [] →
        SkillMatcher.find_transferable_matches oracles config
          (SkillMatcher.normalize_skills candidate_skills)
          (SkillMatcher.normalize_skills required_skills) = [] := by
      intro he
      simp [SkillMatcher.find_transferable_matches, he]
    rw [SkillMatcher.calculate_final_score,
      SkillMatcher.calculate_exact_score_eq, SkillMatcher.calculate_semantic_score_eq,
      SkillMatcher.calculate_transferable_score_eq _ _ htm]
  · exact SkillMatcher.preferred_bonus_nonneg _ _
  · exact SkillMatcher.preferred_bonus_le _ _
  · intro s
    rw [List.mem_filter]
    simp only [decide_eq_true_eq, not_or]
    constructor
    · rintro ⟨hsr, h1, h2, h3⟩
      exact ⟨hsr, h1, h2, fun t ht => h3 (List.mem_map.mpr ⟨(s, t), ht, rfl⟩)⟩
    · rintro ⟨hsr, h1, h2, h3⟩
      refine ⟨hsr, h1, h2, fun hmem => ?_⟩
      obtain ⟨⟨a, b⟩, hp, hps⟩ := List.mem_map.mp hmem
      simp only at hps
      subst hps
      exact h3 b hp


/-- Closed-input check of `C4_skill_matcher_score_and_missing` on
candidate `["python"]`, required `["python", "sql"]`. -/
theorem C4_skill_matcher_witness :
    (["python"] : List String) ≠ [] ∧ (["python", "sql"] : List String) ≠ [] ∧
    ((SkillMatcher.calculate_match zeroSkillOracles {} ["python"] ["python", "sql"] []
        "").score
      = min 1.0
        ((SkillMatcher.calculate_match zeroSkillOracles {} ["python"] ["python", "sql"] []
            "").exact_matches.length /
          ((SkillMatcher.calculate_match zeroSkillOracles {} ["python"] ["python", "sql"] []
            "").required_skills.length : ℚ) * 0.6 +
         (SkillMatcher.calculate_match zeroSkillOracles {} ["python"] ["python", "sql"] []
            "").semantic_matches.length /
          ((SkillMatcher.calculate_match zeroSkillOracles {} ["python"] ["python", "sql"] []
            "").required_skills.length : ℚ) * 0.3 +
         ((SkillMatcher.calculate_match zeroSkillOracles {} ["python"] ["python", "sql"] []
            "").transferable_matches.map Prod.snd).sum /
          ((SkillMatcher.calculate_match zeroSkillOracles {} ["python"] ["python", "sql"] []
            "").required_skills.length : ℚ) * 0.1 +
         (SkillMatcher.calculate_match zeroSkillOracles {} ["python"] ["python", "sql"] []
            "").component_preferred_bonus)) ∧
    0 ≤ (SkillMatcher.calculate_match zeroSkillOracles {} ["python"] ["python", "sql"] []
        "").component_preferred_bonus ∧
    (SkillMatcher.calculate_match zeroSkillOracles {} ["python"] ["python", "sql"] []
        "").component_preferred_bonus ≤ 1/10 ∧
    (∀ s, s ∈ (SkillMatcher.calculate_match zeroSkillOracles {} ["python"] ["python", "sql"]
        [] "").missing_skills ↔
      (s ∈ (SkillMatcher.calculate_match zeroSkillOracles {} ["python"] ["python", "sql"]
          [] "").required_skills ∧
       s ∉ (SkillMatcher.calculate_match zeroSkillOracles {} ["python"] ["python", "sql"]
          [] "").exact_matches ∧
       s ∉ (SkillMatcher.calculate_match zeroSkillOracles {} ["python"] ["python", "sql"]
          [] "").semantic_matches ∧
       ∀ t : ℚ, (s, t) ∉ (SkillMatcher.calculate_match zeroSkillOracles {} ["python"]
          ["python", "sql"] [] "").transferable_matches)) :=
  ⟨by decide, by decide,
    C4_skill_matcher_score_and_missing zeroSkillOracles {} ["python"] ["python", "sql"] [] ""
      (by decide) (by decide)⟩

open FastRecommendationSystem

/-- When a component scorer raises (detailed match `None`), the loop's
`if job_match:` guard skips the job: nothing is returned and nothing is
cached. -/
lemma processJob_error_skips (oracles : SkillOracles) (config : RecConfig)
    (cache : MatchCache) (resume_vector : ResumeVector) (job_vector : JobVector)
    (similarity_score : ℚ)
    (hmiss : cache.get_match resume_vector.candidate_id job_vector.job_id = none)
    (herr : calculate_detailed_match oracles config resume_vector job_vector
      similarity_score = none) :
    processJob oracles config cache resume_vector job_vector similarity_score
      = (none, cache) := by
  unfold processJob
  rw [hmiss, herr]

/-- C2 (amended): after a cache-miss call that successfully computes a
detailed match for (candidate, job), an identical second call is served from
the cache (neither recomputing nor re-storing) and reproduces the six cached
score fields exactly — but its `confidence_score` is the constant `0.8` and
its skill lists are the defaults, so the rebuilt result is not bit-identical
to the first one in general. (When a component scorer raises instead, the
job is skipped and nothing is cached — see `processJob_error_skips`.) -/
theorem C2_second_call_hits_cache (oracles : SkillOracles) (config : RecConfig)
    (cache : MatchCache) (resume_vector : ResumeVector) (job_vector : JobVector)
    (similarity_score : ℚ) (m : FastJobMatch)
    (hmiss : cache.get_match resume_vector.candidate_id job_vector.job_id = none)
    (hdetail : calculate_detailed_match oracles config resume_vector job_vector
      similarity_score = some m) :
    (processJob oracles config cache resume_vector job_vector similarity_score).1
      = some m ∧
    ((processJob oracles config cache resume_vector job_vector
        similarity_score).2.get_match resume_vector.candidate_id
        job_vector.job_id).isSome ∧
    ∃ m2,
      processJob oracles config
          (processJob oracles config cache resume_vector job_vector similarity_score).2
          resume_vector job_vector similarity_score
        = (some m2,
           (processJob oracles config cache resume_vector job_vector
             similarity_score).2) ∧
      m2.match_score = m.match_score ∧
      m2.skill_match_score = m.skill_match_score ∧
      m2.experience_match_score = m.experience_match_score ∧
      m2.location_match_score = m.location_match_score ∧
      m2.career_growth_score = m.career_growth_score ∧
      m2.salary_match_score = m.salary_match_score ∧
      m2.confidence_score = 0.8 ∧
      m2.skill_matches = [] ∧
      m2.missing_skills = [] ∧
      m2.transferable_skills = [] := by
  have hfirst : processJob oracles config cache resume_vector job_vector similarity_score
      = (some m, cache_match_result cache resume_vector.candidate_id job_vector.job_id
          m) := by
    unfold processJob
    rw [hmiss, hdetail]
  have hhit : (cache_match_result cache resume_vector.candidate_id job_vector.job_id
      m).get_match resume_vector.candidate_id job_vector.job_id
      = some
        { candidate_id := resume_vector.candidate_id
          job_id := job_vector.job_id
          overall_score := m.match_score
          skill_score := m.skill_match_score
          experience_score := m.experience_match_score
          location_score := m.location_match_score
          career_growth_score := m.career_growth_score
          salary_score := m.salary_match_score } := by
    unfold cache_match_result MatchCache.store_match MatchCache.get_match
    rw [List.find?_cons_of_pos _ (by simp)]
    rfl
  refine ⟨by rw [hfirst], ?_, ?_⟩
  · rw [hfirst]
    simp only
    rw [hhit]
    rfl
  · refine ⟨create_job_match_from_cache
      { candidate_id := resume_vector.candidate_id
        job_id := job_vector.job_id
        overall_score := m.match_score
        skill_score := m.skill_match_score
        experience_score := m.experience_match_score
        location_score := m.location_match_score
        career_growth_score := m.career_growth_score
        salary_score := m.salary_match_score } job_vector, ?_, rfl, rfl, rfl, rfl, rfl,
      rfl, rfl, rfl, rfl, rfl⟩
    conv_lhs => rw [hfirst]
    rw [hfirst]
    simp only
    unfold processJob
    rw [hhit]

/-- The skill analysis the fast path computes for c2Resume against c2Job. -/
lemma c2_skill_analysis_eval :
    SkillMatcher.calculate_match zeroSkillOracles {} ["Python"] ["Python"] [] ""
      = { score := 3/5, exact_matches := ["python"], semantic_matches := [],
          transferable_matches := [], preferred_matches := [], missing_skills := [],
          skill_gaps := [], required_skills := ["python"], component_exact := 1,
          component_semantic := 0, component_transferable := 0,
          component_preferred_bonus := 0 } := by
  have hn1 : SkillMatcher.normalize_skills ["Python"] = ["python"] := by decide
  have hn2 : SkillMatcher.normalize_skills ([] : List String) = [] := by decide
  norm_num +decide [SkillMatcher.calculate_match, hn1, hn2,
    SkillMatcher.find_exact_matches, SkillMatcher.find_semantic_matches,
    SkillMatcher.find_transferable_matches, SkillMatcher.find_preferred_matches,
    SkillMatcher.calculate_exact_score, SkillMatcher.calculate_semantic_score,
    SkillMatcher.calculate_transferable_score, SkillMatcher.calculate_preferred_bonus,
    SkillMatcher.calculate_final_score, SkillMatcher.calculate_skill_gaps,
    zeroSkillOracles, SkillAnalysis.mk.injEq]

/-- The detailed match for (c2Resume, c2Job) at FAISS similarity `1/2`:
every component scorer returns, and the first call therefore caches. -/
lemma c2_detailed_eval :
    calculate_detailed_match zeroSkillOracles {} c2Resume c2Job (1/2)
      = some c2Detailed := by
  have hexp : ExperienceMatcher.calculate_match {} (some 4) (some 2) (some 5)
      = some 1.0 := by
    norm_num [ExperienceMatcher.calculate_match]
  have hloc : LocationMatcher.calculate_match {} "" "" "No" (1/2) = 3/10 := by
    norm_num +decide [LocationMatcher.calculate_match, LocationMatcher.is_same_location,
      LocationMatcher.calculate_proximity_score]
  have hcar : CareerAnalyzer.calculate_growth_potential {} "" 1 (some 4) c2Job
      = some (61/100) := by
    norm_num +decide [CareerAnalyzer.calculate_growth_potential,
      CareerAnalyzer.check_career_progression, CareerAnalyzer.check_level_appropriateness,
      CareerAnalyzer.infer_job_level, CareerAnalyzer.check_advancement_potential,
      CareerAnalyzer.career_paths, c2Job]
  have hmkt : MarketAnalyzer.get_market_demand "x" "" ["Python"] = 29/50 := by
    norm_num +decide [MarketAnalyzer.get_market_demand, MarketAnalyzer.get_title_demand,
      MarketAnalyzer.get_location_demand, MarketAnalyzer.get_skills_demand]
  unfold calculate_detailed_match
  rw [show c2Resume.skills = ["Python"] from rfl,
    show c2Job.required_skills = ["Python"] from rfl,
    show c2Job.preferred_skills = [] from rfl,
    c2_skill_analysis_eval]
  rw [show c2Resume.experience_years = some 4 from rfl,
    show c2Job.min_experience_years = some 2 from rfl,
    show c2Job.max_experience_years = some 5 from rfl, hexp]
  rw [show c2Resume.location = "" from rfl, show c2Job.location = "" from rfl,
    show c2Job.remote_work_allowed = "No" from rfl,
    show c2Resume.remote_preference = 1/2 from by norm_num [c2Resume], hloc]
  rw [show c2Resume.current_role = "" from rfl, hcar]
  rw [show c2Resume.salary_expectation = none from rfl,
    show c2Job.min_salary = none from rfl, show c2Job.max_salary = none from rfl]
  rw [show c2Job.title = "x" from rfl]
  rw [hmkt]
  norm_num [SalaryAnalyzer.calculate_match, SalaryAnalyzer.falsy, calculate_overall_score,
    c2Detailed, FastJobMatch.mk.injEq, c2Resume, c2Job]

/-- The worked trace of the rejected scenario: with a `None` experience bound
the experience matcher raises, the job is skipped and nothing is cached. -/
lemma c2_none_experience_skips :
    processJob zeroSkillOracles {}
      [] { candidate_id := "c1", skills := ["Python"] } { job_id := "j1" } (1/2)
      = (none, []) := by
  unfold processJob calculate_detailed_match
  rfl

/-- Closed-input check of `C2_second_call_hits_cache` (empty starting cache,
zero transferability/embedding oracles, FAISS similarity `1/2`). -/
theorem C2_second_call_witness :
    MatchCache.get_match ([] : MatchCache) c2Resume.candidate_id c2Job.job_id = none ∧
    calculate_detailed_match zeroSkillOracles {} c2Resume c2Job (1/2) = some c2Detailed ∧
    (c2FirstCall.1 = some c2Detailed ∧
     (MatchCache.get_match c2FirstCall.2 c2Resume.candidate_id c2Job.job_id).isSome ∧
     ∃ m2,
       c2SecondCall = (some m2, c2FirstCall.2) ∧
       m2.match_score = c2Detailed.match_score ∧
       m2.skill_match_score = c2Detailed.skill_match_score ∧
       m2.experience_match_score = c2Detailed.experience_match_score ∧
       m2.location_match_score = c2Detailed.location_match_score ∧
       m2.career_growth_score = c2Detailed.career_growth_score ∧
       m2.salary_match_score = c2Detailed.salary_match_score ∧
       m2.confidence_score = 0.8 ∧
       m2.skill_matches = [] ∧
       m2.missing_skills = [] ∧
       m2.transferable_skills = []) :=
  ⟨rfl, c2_detailed_eval,
   C2_second_call_hits_cache zeroSkillOracles {} [] c2Resume c2Job (1/2) c2Detailed rfl
     c2_detailed_eval⟩

/-- C2 counterexample: the two calls do NOT return bit-identical results —
the first call's confidence is the FAISS similarity (here `1/2`) and it
carries the matched-skill list, while the cached rebuild hard-codes `0.8`
and drops the list. -/
theorem C2_counterexample_not_bit_identical :
    c2FirstCall.1 = some c2Detailed ∧
    c2Detailed.confidence_score = 1/2 ∧
    c2Detailed.skill_matches = ["python"] ∧
    c2SecondCall.1 ≠ c2FirstCall.1 ∧
    c2SecondCall.1.map FastJobMatch.confidence_score = some 0.8 ∧
    c2SecondCall.1.map FastJobMatch.skill_matches = some [] := by
  have hfirst : c2FirstCall
      = (some c2Detailed,
         cache_match_result [] c2Resume.candidate_id c2Job.job_id c2Detailed) := by
    unfold c2FirstCall processJob
    rw [show MatchCache.get_match ([] : MatchCache) c2Resume.candidate_id c2Job.job_id
        = none from rfl]
    rw [c2_detailed_eval]
  have hsecond : c2SecondCall.1
      = some (create_job_match_from_cache
          { candidate_id := c2Resume.candidate_id
            job_id := c2Job.job_id
            overall_score := c2Detailed.match_score
            skill_score := c2Detailed.skill_match_score
            experience_score := c2Detailed.experience_match_score
            location_score := c2Detailed.location_match_score
            career_growth_score := c2Detailed.career_growth_score
            salary_score := c2Detailed.salary_match_score } c2Job) := by
    unfold c2SecondCall processJob
    rw [hfirst]
    simp only
    rw [show (cache_match_result [] c2Resume.candidate_id c2Job.job_id
        c2Detailed).get_match c2Resume.candidate_id c2Job.job_id = some
          { candidate_id := c2Resume.candidate_id
            job_id := c2Job.job_id
            overall_score := c2Detailed.match_score
            skill_score := c2Detailed.skill_match_score
            experience_score := c2Detailed.experience_match_score
            location_score := c2Detailed.location_match_score
            career_growth_score := c2Detailed.career_growth_score
            salary_score := c2Detailed.salary_match_score } from rfl]
  refine ⟨by rw [hfirst], rfl, by decide, ?_, ?_, ?_⟩
  · rw [hfirst, hsecond]
    simp only
    intro h
    have hc := congrArg (fun o => o.map FastJobMatch.confidence_score) h
    simp only [Option.map_some, create_job_match_from_cache] at hc
    have : (0.8 : ℚ) = c2Detailed.confidence_score := by
      exact Option.some_inj.mp hc
    rw [show c2Detailed.confidence_score = 1/2 from rfl] at this
    norm_num at this
  · rw [hsecond]
    rfl
  · rw [hsecond]
    rfl

namespace DynamicWeightCalculator

lemma nonneg_industry_base (i : IndustryType) :
    NonnegWeights ((industry_weights i).getD base_weights) := by
  cases i <;> norm_num [industry_weights, base_weights, NonnegWeights, Option.getD]

lemma nonneg_base : NonnegWeights base_weights := by
  norm_num [base_weights, NonnegWeights]

lemma nonneg_stage (w : WeightConfig) (s : CareerStage) (h : NonnegWeights w) :
    NonnegWeights (apply_career_stage_adjustments w s) := by
  obtain ⟨h1, h2, h3, h4, h5, h6, h7⟩ := h
  cases s <;>
    exact ⟨mul_nonneg h1 (by norm_num [career_stage_adjustments]),
      mul_nonneg h2 (by norm_num [career_stage_adjustments]),
      mul_nonneg h3 (by norm_num [career_stage_adjustments]),
      mul_nonneg h4 (by norm_num [career_stage_adjustments]),
      mul_nonneg h5 (by norm_num [career_stage_adjustments]), h6, h7⟩

lemma nonneg_user (w : WeightConfig) (p : UserProfile) (h : NonnegWeights w) :
    NonnegWeights (apply_user_preferences w p) := by
  obtain ⟨h1, h2, h3, h4, h5, h6, h7⟩ := h
  unfold apply_user_preferences
  dsimp only
  split_ifs <;>
    refine ⟨?_, ?_, ?_, ?_, ?_, ?_, ?_⟩ <;>
    dsimp only <;>
    first
      | assumption
      | exact mul_nonneg (by assumption) (by norm_num)

lemma nonneg_market (w : WeightConfig) (mc : MarketContext) (h : NonnegWeights w)
    (hrt : mc.remote_work_trend.getD 0.5 ≤ 10/3) :
    NonnegWeights (apply_market_conditions w mc) := by
  obtain ⟨h1, h2, h3, h4, h5, h6, h7⟩ := h
  unfold apply_market_conditions
  dsimp only
  split_ifs with hr hs he hs he <;>
    refine ⟨?_, ?_, ?_, ?_, ?_, ?_, ?_⟩ <;>
    dsimp only <;>
    first
      | assumption
      | exact mul_nonneg (by assumption) (by nlinarith)

lemma sum_normalize (w : WeightConfig) : sumWeights (normalize_weights w) = 1 := by
  unfold normalize_weights
  dsimp only
  split_ifs with h
  · norm_num [sumWeights, base_weights]
  · show w.skill_weight / sumWeights w + w.experience_weight / sumWeights w +
      w.location_weight / sumWeights w + w.salary_weight / sumWeights w +
      w.semantic_weight / sumWeights w + w.market_demand_weight / sumWeights w +
      w.career_growth_weight / sumWeights w = 1
    have hsum : w.skill_weight / sumWeights w + w.experience_weight / sumWeights w +
        w.location_weight / sumWeights w + w.salary_weight / sumWeights w +
        w.semantic_weight / sumWeights w + w.market_demand_weight / sumWeights w +
        w.career_growth_weight / sumWeights w
        = (w.skill_weight + w.experience_weight + w.location_weight + w.salary_weight +
           w.semantic_weight + w.market_demand_weight + w.career_growth_weight) /
          sumWeights w := by ring
    rw [hsum]
    exact div_self h

lemma nonneg_normalize (w : WeightConfig) (h : NonnegWeights w) :
    NonnegWeights (normalize_weights w) := by
  obtain ⟨h1, h2, h3, h4, h5, h6, h7⟩ := h
  unfold normalize_weights
  dsimp only
  split_ifs with hz
  · exact nonneg_base
  · have hpos : 0 ≤ sumWeights w := by
      unfold sumWeights
      linarith
    exact ⟨div_nonneg h1 hpos, div_nonneg h2 hpos, div_nonneg h3 hpos,
      div_nonneg h4 hpos, div_nonneg h5 hpos, div_nonneg h6 hpos, div_nonneg h7 hpos⟩

lemma nonneg_pre_normalization (p : UserProfile) (j : JobData) (mc : Option MarketContext)
    (hrt : (mc.getD market_conditions).remote_work_trend.getD 0.5 ≤ 10/3) :
    NonnegWeights (pre_normalization_weights p j mc) :=
  nonneg_market _ _ (nonneg_user _ _ (nonneg_stage _ _ (nonneg_industry_base _))) hrt

end DynamicWeightCalculator

open DynamicWeightCalculator

/-- C1 (amended): every `WeightConfig` returned by
`calculate_optimal_weights` sums exactly to `1.0`; and whenever the market
context's remote-work trend is at most `10/3` (in particular for the `None`
default and for the documented `0–1` signal scale) all seven weights are also
non-negative. (For larger trend values the location weight goes negative —
see the counterexample.) -/
theorem C1_weights_sum_one_and_nonneg (user_profile : UserProfile) (job_data : JobData)
    (market_context : Option MarketContext) :
    sumWeights (calculate_optimal_weights user_profile job_data market_context) = 1 ∧
    ((market_context.getD market_conditions).remote_work_trend.getD 0.5 ≤ 10/3 →
      NonnegWeights (calculate_optimal_weights user_profile job_data market_context)) :=
  ⟨sum_normalize _, fun hrt =>
    nonneg_normalize _ (nonneg_pre_normalization user_profile job_data market_context hrt)⟩

/-- Closed-input check of `C1_weights_sum_one_and_nonneg` on the empty
profile, job `jobX` and the `None` market context, discharging the
remote-work-trend bound of the non-negativity implication. -/
theorem C1_weights_witness :
    ((none : Option MarketContext).getD market_conditions).remote_work_trend.getD 0.5
      ≤ 10/3 ∧
    sumWeights (calculate_optimal_weights candE.toProfile jobX none) = 1 ∧
    NonnegWeights (calculate_optimal_weights candE.toProfile jobX none) := by
  have hrt : ((none : Option MarketContext).getD market_conditions).remote_work_trend.getD
      0.5 ≤ 10/3 := by norm_num [market_conditions, Option.getD]
  obtain ⟨hsum, hn⟩ := C1_weights_sum_one_and_nonneg candE.toProfile jobX none
  exact ⟨hrt, hsum, hn hrt⟩

lemma detect_industry_jobX : detect_industry jobX = .technology := by decide

lemma detect_career_stage_jobX : detect_career_stage candE.toProfile jobX = .entry := by
  unfold detect_career_stage
  rw [if_neg (by decide), if_neg (by decide), if_neg (by decide), if_neg (by decide),
    if_pos]
  norm_num [candE, CandidateData.toProfile, Option.getD]

/-- The pre-normalization weights for (candE, jobX) under market context
`ctxNeg` (remote-work trend 4): the location weight is already negative. -/
lemma pre_weights_ctxNeg :
    pre_normalization_weights candE.toProfile jobX (some ctxNeg)
      = ⟨0.675, 0.06, -0.024, 0.08, 0.13, 0.03, 0.02⟩ := by
  unfold pre_normalization_weights
  rw [detect_industry_jobX, detect_career_stage_jobX]
  norm_num [industry_weights, apply_career_stage_adjustments, career_stage_adjustments,
    apply_user_preferences, apply_market_conditions, candE, CandidateData.toProfile,
    ctxNeg, Option.getD, WeightConfig.mk.injEq]

/-- C1 counterexample: with market context `{remote_work_trend: 4}` the
calculator returns a negative location weight (the claim quantifies over
every optional market context). -/
theorem C1_counterexample_negative_location_weight :
    (calculate_optimal_weights candE.toProfile jobX (some ctxNeg)).location_weight < 0 ∧
    sumWeights (calculate_optimal_weights candE.toProfile jobX (some ctxNeg)) = 1 := by
  constructor
  · show (normalize_weights (pre_normalization_weights candE.toProfile jobX
      (some ctxNeg))).location_weight < 0
    rw [pre_weights_ctxNeg]
    norm_num [normalize_weights, sumWeights]
  · exact sum_normalize _

/-- C8 (amended): when the pre-normalization weight sum is `0` the calculator
falls back to the global `base_weights` — not the detected industry's
configuration; when the sum is non-zero every returned weight is the
pre-normalization weight divided by the sum. -/
theorem C8_zero_sum_falls_back_to_base (user_profile : UserProfile) (job_data : JobData)
    (market_context : Option MarketContext) :
    (sumWeights (pre_normalization_weights user_profile job_data market_context) = 0 →
      calculate_optimal_weights user_profile job_data market_context = base_weights) ∧
    (sumWeights (pre_normalization_weights user_profile job_data market_context) ≠ 0 →
      calculate_optimal_weights user_profile job_data market_context
        = { skill_weight := (pre_normalization_weights user_profile job_data
              market_context).skill_weight /
              sumWeights (pre_normalization_weights user_profile job_data market_context)
            experience_weight := (pre_normalization_weights user_profile job_data
              market_context).experience_weight /
              sumWeights (pre_normalization_weights user_profile job_data market_context)
            location_weight := (pre_normalization_weights user_profile job_data
              market_context).location_weight /
              sumWeights (pre_normalization_weights user_profile job_data market_context)
            salary_weight := (pre_normalization_weights user_profile job_data
              market_context).salary_weight /
              sumWeights (pre_normalization_weights user_profile job_data market_context)
            semantic_weight := (pre_normalization_weights user_profile job_data
              market_context).semantic_weight /
              sumWeights (pre_normalization_weights user_profile job_data market_context)
            market_demand_weight := (pre_normalization_weights user_profile job_data
              market_context).market_demand_weight /
              sumWeights (pre_normalization_weights user_profile job_data market_context)
            career_growth_weight := (pre_normalization_weights user_profile job_data
              market_context).career_growth_weight /
              sumWeights (pre_normalization_weights user_profile job_data market_context) }) := by
  constructor
  · intro h
    show normalize_weights _ = base_weights
    unfold normalize_weights
    dsimp only
    rw [if_pos h]
  · intro h
    show normalize_weights _ = _
    unfold normalize_weights
    dsimp only
    rw [if_neg h]

/-- The pre-normalization weights for (candE, jobX) under `ctxZero`:
they sum to exactly `0`. -/
lemma pre_weights_ctxZero :
    pre_normalization_weights candE.toProfile jobX (some ctxZero)
      = ⟨0.675, 0.06, -(199/200), 0.08, 0.13, 0.03, 0.02⟩ := by
  unfold pre_normalization_weights
  rw [detect_industry_jobX, detect_career_stage_jobX]
  norm_num [industry_weights, apply_career_stage_adjustments, career_stage_adjustments,
    apply_user_preferences, apply_market_conditions, candE, CandidateData.toProfile,
    ctxZero, Option.getD, WeightConfig.mk.injEq]

/-- C8 counterexample: a zero pre-normalization sum is reachable, and the
calculator then returns the global `base_weights`, which differs from the
detected (technology) industry's base `WeightConfig`. -/
theorem C8_counterexample_not_industry_config :
    sumWeights (pre_normalization_weights candE.toProfile jobX (some ctxZero)) = 0 ∧
    detect_industry jobX = .technology ∧
    calculate_optimal_weights candE.toProfile jobX (some ctxZero) = base_weights ∧
    base_weights ≠ (industry_weights (detect_industry jobX)).getD base_weights := by
  have hsum : sumWeights (pre_normalization_weights candE.toProfile jobX (some ctxZero))
      = 0 := by
    rw [pre_weights_ctxZero]
    norm_num [sumWeights]
  refine ⟨hsum, detect_industry_jobX, ?_, ?_⟩
  · show normalize_weights _ = base_weights
    unfold normalize_weights
    dsimp only
    rw [if_pos hsum]
  · rw [detect_industry_jobX]
    intro h
    have := congrArg WeightConfig.skill_weight h
    norm_num [base_weights, industry_weights, Option.getD] at this

/-- The pre-normalization weights for (candE, jobX) under the default
(`None`) market context. -/
lemma pre_weights_default :
    pre_normalization_weights candE.toProfile jobX none
      = ⟨0.675, 0.06, 0.0948, 0.08, 0.13, 0.03, 0.02⟩ := by
  unfold pre_normalization_weights
  rw [detect_industry_jobX, detect_career_stage_jobX]
  norm_num [industry_weights, apply_career_stage_adjustments, career_stage_adjustments,
    apply_user_preferences, apply_market_conditions, market_conditions, candE,
    CandidateData.toProfile, Option.getD, WeightConfig.mk.injEq]

/-- Closed-input check of `C8_zero_sum_falls_back_to_base` (both branches
exercised: `ctxZero` gives sum `0`, the default context a non-zero sum). -/
theorem C8_normalization_witness :
    sumWeights (pre_normalization_weights candE.toProfile jobX (some ctxZero)) = 0 ∧
    calculate_optimal_weights candE.toProfile jobX (some ctxZero) = base_weights ∧
    sumWeights (pre_normalization_weights candE.toProfile jobX none) ≠ 0 ∧
    (calculate_optimal_weights candE.toProfile jobX none).skill_weight
      = (pre_normalization_weights candE.toProfile jobX none).skill_weight /
        sumWeights (pre_normalization_weights candE.toProfile jobX none) := by
  have hsum : sumWeights (pre_normalization_weights candE.toProfile jobX (some ctxZero))
      = 0 := by
    rw [pre_weights_ctxZero]
    norm_num [sumWeights]
  have hne : sumWeights (pre_normalization_weights candE.toProfile jobX none) ≠ 0 := by
    rw [pre_weights_default]
    norm_num [sumWeights]
  refine ⟨hsum, (C8_zero_sum_falls_back_to_base candE.toProfile jobX (some ctxZero)).1 hsum,
    hne, ?_⟩
  rw [(C8_zero_sum_falls_back_to_base candE.toProfile jobX none).2 hne]

open JobMatcherService

/-- The single job match produced for (candE, jobX): overall score
`912/5449 ≈ 0.167`. -/
lemma c5_jobMatch_eval :
    jobMatchOf nlpNone candE (enhanced_candidate_skills nlpNone candE) jobX
      = some c5Match := by
  have hw : DynamicWeightCalculator.calculate_optimal_weights candE.toProfile jobX none
      = { skill_weight := 3375/5449, experience_weight := 300/5449,
          location_weight := 474/5449, salary_weight := 400/5449,
          semantic_weight := 650/5449, market_demand_weight := 150/5449,
          career_growth_weight := 100/5449 } := by
    unfold DynamicWeightCalculator.calculate_optimal_weights
    rw [pre_weights_default]
    norm_num [DynamicWeightCalculator.normalize_weights, DynamicWeightCalculator.sumWeights,
      WeightConfig.mk.injEq]
  have hsk : enhanced_candidate_skills nlpNone candE = [] := by decide
  unfold jobMatchOf
  rw [hsk, if_neg (by decide), hw]
  norm_num [calculate_skill_match_score, calculate_experience_match_score,
    calculate_location_match_score, calculate_salary_match_score,
    calculate_semantic_similarity_enhanced, generate_match_reasons,
    jobX, candE, nlpNone, c5Match, JobMatch.mk.injEq]

/-- Full batch evaluation for (candE, [jobX]). -/
lemma c5_batch_eval :
    match_candidate_to_jobs nlpNone candE [jobX] 10 = [c5Match] := by
  unfold match_candidate_to_jobs
  rw [List.filterMap_cons, c5_jobMatch_eval]
  simp

/-- C5 counterexample: `match_candidate_to_jobs` returns a match whose score
(`912/5449 ≈ 0.167`) is far below the configured minimum-score threshold
(`min_match_score = 0.6`): no minimum-score filtering happens. -/
theorem C5_counterexample_below_threshold_returned :
    match_candidate_to_jobs nlpNone candE [jobX] 10 = [c5Match] ∧
    c5Match.match_score < ({} : RecConfig).min_match_score :=
  ⟨c5_batch_eval, by show (912/5449 : ℚ) < 0.6; norm_num⟩

/-- C5 (amended): the batch matcher sorts the per-job results in descending
`match_score` order and returns at most `top_k` of them; the only filtering
is the skipping of inactive / erroring jobs inside the loop — no
minimum-score threshold is applied. -/
theorem C5_sorts_descending_and_truncates (nlp : NlpOracle) (candidate_data : CandidateData)
    (jobs : List JobData) (top_k : Nat) :
    (match_candidate_to_jobs nlp candidate_data jobs top_k).length ≤ top_k ∧
    List.Pairwise (fun a b : JobMatch => b.match_score ≤ a.match_score)
      (match_candidate_to_jobs nlp candidate_data jobs top_k) ∧
    match_candidate_to_jobs nlp candidate_data jobs top_k
      = ((jobs.filterMap
            (jobMatchOf nlp candidate_data
              (enhanced_candidate_skills nlp candidate_data))).mergeSort
          fun a b => b.match_score ≤ a.match_score).take top_k := by
  refine ⟨?_, ?_, rfl⟩
  · unfold match_candidate_to_jobs
    exact List.length_take_le _ _
  · unfold match_candidate_to_jobs
    apply List.Pairwise.take
    have hs := @List.sorted_mergeSort JobMatch
      (fun a b : JobMatch => decide (b.match_score ≤ a.match_score))
      (fun a b c hab hbc => by
        simp only [decide_eq_true_eq] at *
        linarith)
      (fun a b => by
        simpa using le_total b.match_score a.match_score)
      (jobs.filterMap
        (jobMatchOf nlp candidate_data (enhanced_candidate_skills nlp candidate_data)))
    exact hs.imp fun h => by simpa using h

/-- C9: every `JobMatch` returned by the batch matcher comes from an input
job whose (lower-cased) lifecycle status is exactly `"active"`; non-active
jobs are skipped before any scoring. -/
theorem C9_only_active_jobs_matched (nlp : NlpOracle) (candidate_data : CandidateData)
    (jobs : List JobData) (top_k : Nat) (m : JobMatch)
    (hm : m ∈ match_candidate_to_jobs nlp candidate_data jobs top_k) :
    ∃ job ∈ jobs, pyLower job.status = "active" ∧
      jobMatchOf nlp candidate_data (enhanced_candidate_skills nlp candidate_data) job
        = some m := by
  unfold match_candidate_to_jobs at hm
  have h1 := (List.take_sublist _ _).subset hm
  have h2 := (List.mergeSort_perm _ _).subset h1
  obtain ⟨job, hj, he⟩ := List.mem_filterMap.mp h2
  refine ⟨job, hj, ?_, he⟩
  by_contra hneq
  unfold jobMatchOf at he
  rw [if_pos hneq] at he
  exact Option.noConfusion he

/-- Closed-input check of `C9_only_active_jobs_matched` on the concrete batch
run for (candE, [jobX]). -/
theorem C9_only_active_witness :
    c5Match ∈ match_candidate_to_jobs nlpNone candE [jobX] 10 ∧
    ∃ job ∈ [jobX], pyLower job.status = "active" ∧
      jobMatchOf nlpNone candE (enhanced_candidate_skills nlpNone candE) job
        = some c5Match := by
  have hmem : c5Match ∈ match_candidate_to_jobs nlpNone candE [jobX] 10 := by
    rw [c5_batch_eval]
    exact List.mem_singleton_self _
  exact ⟨hmem, C9_only_active_jobs_matched nlpNone candE [jobX] 10 c5Match hmem⟩

namespace OntologyService

/-- `specSimilarity` only takes the five documented values. -/
lemma spec_similarity_range (s1 s2 : String) :
    specSimilarity s1 s2 ∈ ({1, 9/10, 7/10, 1/2, 0} : Set ℚ) := by
  unfold specSimilarity
  by_cases he : s1 = s2
  · simp [he]
  · simp only [if_neg he]
    cases graphGet (pyLower s1) <;> cases graphGet (pyLower s2) <;>
      simp only [] <;> first
        | (split_ifs <;> simp)
        | simp

end OntologyService

/-- C3: `get_skill_similarity` returns exactly the first applicable value of
the priority list — exact match 1.0, synonym 0.9, related-skill edge 0.7,
shared category 0.5, otherwise 0.0 — and never any other value (the source's
`0.6` relationship branch is unreachable: its guard implies the earlier
related-skill guard). -/
theorem C3_similarity_is_priority_list (skill1 skill2 : String) :
    OntologyService.get_skill_similarity skill1 skill2
      = OntologyService.specSimilarity skill1 skill2 ∧
    OntologyService.get_skill_similarity skill1 skill2
      ∈ ({1, 9/10, 7/10, 1/2, 0} : Set ℚ) :=
  ⟨OntologyService.similarity_eq_spec skill1 skill2,
   (OntologyService.similarity_eq_spec skill1 skill2) ▸
     OntologyService.spec_similarity_range skill1 skill2⟩

/-- C10: skill-ontology similarity is symmetric — every tier (exact equality,
synonym membership in either node, a related edge in either direction, shared
category, and the symmetric relationship table) tests a symmetric condition. -/
theorem C10_similarity_symmetric (skill1 skill2 : String) :
    OntologyService.get_skill_similarity skill1 skill2
      = OntologyService.get_skill_similarity skill2 skill1 := by
  rw [OntologyService.similarity_eq_spec, OntologyService.similarity_eq_spec]
  exact OntologyService.spec_similarity_symm skill1 skill2
